import Mathlib

/-!
Shallow embedding of `dynamixel_hardware/src/dynamixel_hardware.cpp`
(the DynamixelHardware control-mode orchestration and cyclic read/write core),
together with theorems settling the specification claims about it.

C++ doubles are modelled by `Dbl`: either NaN or an exact rational value.
The external `dynamixel_workbench_` SDK handle is modelled by `BusEnv`:
an oracle `ok` giving the success/failure of the k-th bus call of the session,
a data oracle `readVals` for batched reads, and the unit-converter functions.
Every bus call is recorded in a trace; each trace entry carries, as a ghost
annotation, the value of the tracked `torque_enabled_` flag at the instant
the call was issued.
-/

/-- A C++ `double`: NaN or an exact rational value.  Comparisons `!=` on
doubles (as used at lines 412 and 425 of the source) are modelled by
`Dbl.ne`, under which NaN compares unequal to everything. -/
inductive Dbl where
  | nan : Dbl
  | val : ℚ → Dbl
deriving DecidableEq

/-- IEEE `!=` on doubles: any comparison involving NaN is true; otherwise
numeric inequality. -/
def Dbl.ne (x y : Dbl) : Bool :=
  match x, y with
  | .nan, _ => true
  | _, .nan => true
  | .val a, .val b => decide (a ≠ b)

/-- The position/velocity/effort triple used for both `state` and `command`
(struct `Joint` in the source header, as used throughout the source). -/
structure MotorState where
  position : Dbl
  velocity : Dbl
  effort : Dbl
deriving DecidableEq

/-- One logical joint: a name and its state/command pairs (source `Joint`). -/
structure Joint where
  name : String
  state : MotorState
  command : MotorState
deriving DecidableEq

/-- Default joint used for guarded list indexing. -/
def jointDefault : Joint :=
  { name := ""
    state := { position := Dbl.nan, velocity := Dbl.nan, effort := Dbl.nan }
    command := { position := Dbl.nan, velocity := Dbl.nan, effort := Dbl.nan } }

/-- Control modes referenced by the source (`ControlMode::Position`,
`ControlMode::Velocity`, `ControlMode::CurrentBasedPosition`).  The `Unset`
constructor is the initial "no mode selected yet" value; the enum itself
lives in the header, and the spec gives the mode set as
{Position, Velocity, CurrentBasedPosition, Unset}. -/
inductive ControlMode where
  | Position : ControlMode
  | Velocity : ControlMode
  | CurrentBasedPosition : ControlMode
  | Unset : ControlMode
deriving DecidableEq

/-- `hardware_interface::return_type` as used by the source. -/
inductive return_type where
  | OK : return_type
  | ERROR : return_type
deriving DecidableEq

/-- Bus calls issued through the workbench handle, as observable events. -/
inductive BusEv where
  | torqueOn : Nat → BusEv
  | torqueOff : Nat → BusEv
  | setVelocityMode : Nat → BusEv
  | setPositionMode : Nat → BusEv
  | setCurrentBasedPositionMode : Nat → BusEv
  | itemWrite : Nat → String → Int → BusEv
  | syncWrite : Nat → List Nat → List Int → BusEv
  | syncRead : Nat → List Nat → BusEv
  | getSyncReadData : String → List Nat → BusEv
deriving DecidableEq

/-- A bus trace: each issued call together with the tracked torque flag at
the instant it was issued (ghost instrumentation). -/
abbrev Trace := List (BusEv × Bool)

/-- Is this bus event one of the three mode-set calls? -/
def isModeSet : BusEv → Bool
  | .setVelocityMode _ => true
  | .setPositionMode _ => true
  | .setCurrentBasedPositionMode _ => true
  | _ => false

/-- Is this bus event a batched sync write? -/
def isSyncWrite : BusEv → Bool
  | .syncWrite _ _ _ => true
  | _ => false

/-- `kGoalPositionIndex` (source line 30). -/
def kGoalPositionIndex : Nat := 0
/-- `kGoalVelocityIndex` (source line 31). -/
def kGoalVelocityIndex : Nat := 1

/-- The external workbench SDK: a success oracle for the k-th bus call of the
session, a data oracle for batched reads, and the unit converters. -/
structure BusEnv where
  ok : Nat → Bool
  readVals : Nat → Nat → Int
  convertValue2Radian : Nat → Int → Dbl
  convertValue2Velocity : Nat → Int → Dbl
  convertValue2Current : Int → Dbl
  convertVelocity2Value : Nat → Dbl → Int
  convertRadian2Value : Nat → Dbl → Int
  convertCurrent2Value : Nat → Dbl → Int

/-- The mutable fields of `DynamixelHardware` that the core functions touch:
joint arrays, device ids, gripper configuration, the dummy flag, and the
tracked torque/control-mode flags.  `tick` counts issued bus calls (it indexes
the oracle); `resets` counts `reset_command` invocations (ghost). -/
structure HwState where
  joints : List Joint
  virtualJoints : List Joint
  jointIds : List Nat
  gripperId : Nat
  gripperCurrentLimit : Dbl
  useDummy : Bool
  torqueEnabled : Bool
  controlMode : ControlMode
  gripperControlMode : ControlMode
  tick : Nat
  resets : Nat
deriving DecidableEq

/-- A per-device loop of bus calls that aborts at the first failure, as in the
loops of `enable_torque` (lines 450-455, 459-464) and `set_control_mode`
(lines 482-487, 501-506).  Returns (all calls succeeded, next tick, trace).
`flag` is the tracked torque flag, constant throughout such a loop, recorded
as the ghost annotation of each issued call. -/
def busLoop (env : BusEnv) (mkEv : Nat → BusEv) (ids : List Nat) (tick : Nat) (flag : Bool) :
    Bool × Nat × Trace :=
  match ids with
  | [] => (true, tick, [])
  | id :: rest =>
    if env.ok tick then
      let r := busLoop env mkEv rest (tick + 1) flag
      (r.1, r.2.1, (mkEv id, flag) :: r.2.2)
    else
      (false, tick + 1, [(mkEv id, flag)])

/-- The id list iterated by `enable_torque`: `joint_ids_[i]` for
`i < joints_.size()` (lines 450, 459). -/
def idsForTorque (s : HwState) : List Nat :=
  (List.range s.joints.length).map (fun i => s.jointIds.getD i 0)

/-- Reset one joint's command from its state (`reset_command` body). -/
def resetJoint (j : Joint) : Joint :=
  { j with command := { position := j.state.position, velocity := Dbl.val 0, effort := Dbl.val 0 } }

/-- `DynamixelHardware::reset_command` (lines 551-566): every device-backed
and virtual joint gets `command.position = state.position` and zero
velocity/effort commands. -/
def reset_command (s : HwState) : return_type × HwState :=
  (return_type.OK,
   { s with
     joints := s.joints.map resetJoint
     virtualJoints := s.virtualJoints.map resetJoint
     resets := s.resets + 1 })

/-- `DynamixelHardware::enable_torque` (lines 445-470).  Acts only on an edge
relative to the tracked flag; a rising edge additionally calls
`reset_command`; a mid-loop bus failure returns ERROR before the flag (and,
on the rising edge, the commands) are updated. -/
def enable_torque (env : BusEnv) (enabled : Bool) (s : HwState) : return_type × HwState × Trace :=
  if enabled = true ∧ s.torqueEnabled = false then
    match busLoop env BusEv.torqueOn (idsForTorque s) s.tick s.torqueEnabled with
    | (true, t, tr) =>
      (return_type.OK, { (reset_command { s with tick := t }).2 with torqueEnabled := enabled }, tr)
    | (false, t, tr) => (return_type.ERROR, { s with tick := t }, tr)
  else if enabled = false ∧ s.torqueEnabled = true then
    match busLoop env BusEv.torqueOff (idsForTorque s) s.tick s.torqueEnabled with
    | (true, t, tr) => (return_type.OK, { s with tick := t, torqueEnabled := enabled }, tr)
    | (false, t, tr) => (return_type.ERROR, { s with tick := t }, tr)
  else (return_type.OK, { s with torqueEnabled := enabled }, [])

/-- The torque bracket of `set_control_mode`: `if (torque_enabled)
enable_torque(e);` with the result value discarded (lines 478-480, 491-493,
497-499, 510-512, 524-526, 543-545).  `t0` is the flag value saved at the
start of the enclosing branch. -/
def scmBracket (env : BusEnv) (t0 : Bool) (e : Bool) (s : HwState) : HwState × Trace :=
  if t0 then ((enable_torque env e s).2.1, (enable_torque env e s).2.2) else (s, [])

/-- One main-branch body of `set_control_mode` (lines 476-493 for Velocity,
494-512 for Position): save the torque flag, disable torque if it was on,
issue the per-device mode-set calls aborting on the first failure (returning
ERROR), record the new tracked mode, and re-enable torque if it was on.
Returns `none` when execution falls through to the gripper block. -/
def scmStage (env : BusEnv) (mkEv : Nat → BusEv) (ids : List Nat) (newMode : ControlMode)
    (s : HwState) : Option return_type × HwState × Trace :=
  let t0 := s.torqueEnabled
  let b1 := scmBracket env t0 false s
  match busLoop env mkEv ids b1.1.tick b1.1.torqueEnabled with
  | (true, t, tr) =>
    let s3 := { b1.1 with tick := t, controlMode := newMode }
    let b2 := scmBracket env t0 true s3
    (none, b2.1, b1.2 ++ tr ++ b2.2)
  | (false, t, tr) => (some return_type.ERROR, { b1.1 with tick := t }, b1.2 ++ tr)

/-- The gripper block of `set_control_mode` (lines 519-546): when a gripper is
present (`gripper_id_ != 255`) and a transition is due, bracket torque, set
current-based-position mode on the gripper device, write the converted
current limit to `Goal_Current`, update the tracked gripper mode, and restore
torque.  Either bus call failing returns ERROR before the tracked gripper
mode is updated. -/
def scmGripper (env : BusEnv) (force_set : Bool) (s : HwState) : return_type × HwState × Trace :=
  if s.gripperId ≠ 255 ∧ (force_set = true ∨ s.gripperControlMode ≠ ControlMode.CurrentBasedPosition) then
    let t0 := s.torqueEnabled
    let b1 := scmBracket env t0 false s
    let s1 := b1.1
    let ev1 : BusEv × Bool := (BusEv.setCurrentBasedPositionMode s.gripperId, s1.torqueEnabled)
    if env.ok s1.tick then
      let s2 : HwState := { s1 with tick := s1.tick + 1 }
      let current := env.convertCurrent2Value s.gripperId s.gripperCurrentLimit
      let ev2 : BusEv × Bool := (BusEv.itemWrite s.gripperId "Goal_Current" current, s2.torqueEnabled)
      if env.ok s2.tick then
        let s3 : HwState :=
          { s2 with tick := s2.tick + 1, gripperControlMode := ControlMode.CurrentBasedPosition }
        let b2 := scmBracket env t0 true s3
        (return_type.OK, b2.1, b1.2 ++ [ev1, ev2] ++ b2.2)
      else (return_type.ERROR, { s2 with tick := s2.tick + 1 }, b1.2 ++ [ev1, ev2])
    else (return_type.ERROR, { s1 with tick := s1.tick + 1 }, b1.2 ++ [ev1])
  else (return_type.OK, s, [])

/-- `DynamixelHardware::set_control_mode` (lines 472-549): the Velocity and
Position transition branches, the "only position/velocity implemented" error
branch, and the gripper block which runs after a non-erroring main stage. -/
def set_control_mode (env : BusEnv) (mode : ControlMode) (force_set : Bool) (s : HwState) :
    return_type × HwState × Trace :=
  if mode = ControlMode.Velocity ∧ (force_set = true ∨ s.controlMode ≠ ControlMode.Velocity) then
    match scmStage env BusEv.setVelocityMode s.jointIds ControlMode.Velocity s with
    | (some r, s', tr) => (r, s', tr)
    | (none, s', tr) =>
      let g := scmGripper env force_set s'
      (g.1, g.2.1, tr ++ g.2.2)
  else if mode = ControlMode.Position ∧ (force_set = true ∨ s.controlMode ≠ ControlMode.Position) then
    match scmStage env BusEv.setPositionMode s.jointIds ControlMode.Position s with
    | (some r, s', tr) => (r, s', tr)
    | (none, s', tr) =>
      let g := scmGripper env force_set s'
      (g.1, g.2.1, tr ++ g.2.2)
  else if s.controlMode ≠ ControlMode.Velocity ∧ s.controlMode ≠ ControlMode.Position then
    (return_type.ERROR, s, [])
  else
    let g := scmGripper env force_set s
    (g.1, g.2.1, g.2.2)

/-- The ordered device-id vector built by `read`/`write` (lines 345, 350 /
405, 408): a vector of `joints_.size()` entries filled from `joint_ids_`. -/
def idsVec (s : HwState) : List Nat :=
  (List.range s.joints.length).map (fun i => s.jointIds.getD i 0)

/-- `DynamixelHardware::read` (lines 339-386): a no-op in dummy mode;
otherwise one batched sync read followed by three per-field extractions
(current, velocity, position, in source order), each failure merely logged
with the zero-initialized buffer left in place, and then an unconditional
conversion loop storing the (possibly zero) raw samples into every joint's
state.  Always returns OK. -/
def DynamixelHardware.read (env : BusEnv) (s : HwState) : return_type × HwState × Trace :=
  if s.useDummy then (return_type.OK, s, [])
  else
    let n := s.joints.length
    let ids := idsVec s
    let t1 := s.tick + 1
    let currents := if env.ok t1 then (List.range n).map (env.readVals t1) else List.replicate n 0
    let t2 := t1 + 1
    let velocities := if env.ok t2 then (List.range n).map (env.readVals t2) else List.replicate n 0
    let t3 := t2 + 1
    let positions := if env.ok t3 then (List.range n).map (env.readVals t3) else List.replicate n 0
    let joints' := (List.range n).map (fun i =>
      let j := s.joints.getD i jointDefault
      { j with state :=
        { position := env.convertValue2Radian (ids.getD i 0) (positions.getD i 0)
          velocity := env.convertValue2Velocity (ids.getD i 0) (velocities.getD i 0)
          effort := env.convertValue2Current (currents.getD i 0) } })
    (return_type.OK, { s with joints := joints', tick := t3 + 1 },
     [(BusEv.syncRead 0 ids, s.torqueEnabled),
      (BusEv.getSyncReadData "Present_Current" ids, s.torqueEnabled),
      (BusEv.getSyncReadData "Present_Velocity" ids, s.torqueEnabled),
      (BusEv.getSyncReadData "Present_Position" ids, s.torqueEnabled)])

/-- `DynamixelHardware::write` (lines 388-443): virtual-joint loop-back first;
in dummy mode copy command position into state position for device-backed
joints and return; otherwise arbitrate (any nonzero `command.velocity` wins
the Velocity branch; else any nonzero `command.effort` is the unimplemented
error; else Position), invoke `set_control_mode` with its result discarded,
convert the per-joint commands as read after that call, and issue one batched
sync write whose failure is only logged. -/
def write (env : BusEnv) (s : HwState) : return_type × HwState × Trace :=
  let s0 := { s with virtualJoints := s.virtualJoints.map (fun (j : Joint) => { j with state := j.command }) }
  if s0.useDummy then
    (return_type.OK,
     { s0 with joints :=
         s0.joints.map (fun (j : Joint) => { j with state := { j.state with position := j.command.position } }) },
     [])
  else
    let ids := idsVec s0
    if s0.joints.any (fun (j : Joint) => Dbl.ne j.command.velocity (Dbl.val 0)) then
      let r := set_control_mode env ControlMode.Velocity false s0
      let s1 := r.2.1
      let commands := List.zipWith (fun (id : Nat) (j : Joint) => env.convertVelocity2Value id j.command.velocity) ids s1.joints
      (return_type.OK, { s1 with tick := s1.tick + 1 },
       r.2.2 ++ [(BusEv.syncWrite kGoalVelocityIndex ids commands, s1.torqueEnabled)])
    else if s0.joints.any (fun (j : Joint) => Dbl.ne j.command.effort (Dbl.val 0)) then
      (return_type.ERROR, s0, [])
    else
      let r := set_control_mode env ControlMode.Position false s0
      let s1 := r.2.1
      let commands := List.zipWith (fun (id : Nat) (j : Joint) => env.convertRadian2Value id j.command.position) ids s1.joints
      (return_type.OK, { s1 with tick := s1.tick + 1 },
       r.2.2 ++ [(BusEv.syncWrite kGoalPositionIndex ids commands, s1.torqueEnabled)])

/-- Run a sequence of `set_control_mode` calls, threading the state and
concatenating the traces. -/
def runModeCalls (env : BusEnv) : List (ControlMode × Bool) → HwState → HwState × Trace
  | [], s => (s, [])
  | (m, f) :: rest, s =>
    let r := set_control_mode env m f s
    let r2 := runModeCalls env rest r.2.1
    (r2.1, r.2.2 ++ r2.2)

/-- The operations of the component, for stating invariants preserved by
every entry point. -/
inductive HwOp where
  | scm : ControlMode → Bool → HwOp
  | torque : Bool → HwOp
  | wr : HwOp
  | rd : HwOp
  | reset : HwOp

/-- Dispatch one operation. -/
def runOp (env : BusEnv) (op : HwOp) (s : HwState) : return_type × HwState × Trace :=
  match op with
  | .scm m f => set_control_mode env m f s
  | .torque e => enable_torque env e s
  | .wr => write env s
  | .rd => DynamixelHardware.read env s
  | .reset => ((reset_command s).1, (reset_command s).2, [])

/-! ## The joint-partition logic of `configure` (lines 50-122) -/

/-- One joint's configuration input, as far as the partition logic of
`configure` consults it: its name and the value of the `is_virtual`
parameter when present. -/
structure JointConfig where
  name : String
  isVirtualParam : Option String
deriving DecidableEq

/-- The sizing pass (lines 53-59) counts a joint as virtual whenever the
`is_virtual` key is present, with any value. -/
def hasIsVirtual (c : JointConfig) : Bool := c.isVirtualParam.isSome

/-- The assignment pass (lines 68-70) treats a joint as virtual only when
`is_virtual` is present and its value is exactly `"true"`. -/
def isVirtualTrue (c : JointConfig) : Bool := c.isVirtualParam == some "true"

/-- `num_joints` as computed by the sizing pass (line 57): joints without an
`is_virtual` key. -/
def numJoints (cfgs : List JointConfig) : Nat := cfgs.countP (fun c => !hasIsVirtual c)

/-- `num_virtual_joints` as computed by the sizing pass (line 55). -/
def numVirtualJoints (cfgs : List JointConfig) : Nat := cfgs.countP (fun c => hasIsVirtual c)

/-- The assignment pass (lines 65-122): walk the joint configurations with
running counters `virtual_joint_index` and `joint_index`, emitting for each
joint whether it is assigned to the virtual array (`true`) or the
device-backed array (`false`), and at which index. -/
def assignIndices : List JointConfig → Nat → Nat → List (Bool × Nat)
  | [], _, _ => []
  | c :: rest, vi, ji =>
    if isVirtualTrue c then (true, vi) :: assignIndices rest (vi + 1) ji
    else (false, ji) :: assignIndices rest vi (ji + 1)

/-! ## Helper lemmas about the bus loops and torque toggling -/

theorem busLoop_allok (env : BusEnv) (hok : ∀ k, env.ok k = true) (mkEv : Nat → BusEv) :
    ∀ (ids : List Nat) (tick : Nat) (flag : Bool),
      busLoop env mkEv ids tick flag =
        (true, tick + ids.length, ids.map (fun i => (mkEv i, flag))) := by
  intro ids
  induction ids with
  | nil => intro tick flag; simp [busLoop]
  | cons id rest ih =>
    intro tick flag
    simp only [busLoop, hok tick, if_true, ih (tick + 1) flag, List.map_cons, List.length_cons,
      Prod.mk.injEq, true_and, and_true]
    omega

theorem busLoop_trace_mem (env : BusEnv) (mkEv : Nat → BusEv) :
    ∀ (ids : List Nat) (tick : Nat) (flag : Bool) (p : BusEv × Bool),
      p ∈ (busLoop env mkEv ids tick flag).2.2 → ∃ id ∈ ids, p = (mkEv id, flag) := by
  intro ids
  induction ids with
  | nil => intro tick flag p hp; simp [busLoop] at hp
  | cons id rest ih =>
    intro tick flag p hp
    by_cases h : env.ok tick
    · simp only [busLoop, h, if_true, List.mem_cons] at hp
      rcases hp with hp | hp
      · exact ⟨id, List.mem_cons_self _ _, hp⟩
      · rcases ih (tick + 1) flag p hp with ⟨i, hi, he⟩
        exact ⟨i, List.mem_cons_of_mem _ hi, he⟩
    · simp only [busLoop, h, if_false, Bool.false_eq_true, List.mem_singleton] at hp
      exact ⟨id, List.mem_cons_self _ _, hp⟩

theorem enable_torque_frame (env : BusEnv) (e : Bool) (s : HwState) :
    (enable_torque env e s).2.1.controlMode = s.controlMode ∧
    (enable_torque env e s).2.1.gripperControlMode = s.gripperControlMode ∧
    (enable_torque env e s).2.1.jointIds = s.jointIds ∧
    (enable_torque env e s).2.1.gripperId = s.gripperId ∧
    (enable_torque env e s).2.1.gripperCurrentLimit = s.gripperCurrentLimit ∧
    (enable_torque env e s).2.1.useDummy = s.useDummy ∧
    (enable_torque env e s).2.1.joints.length = s.joints.length ∧
    (enable_torque env e s).2.1.virtualJoints.length = s.virtualJoints.length := by
  unfold enable_torque
  split
  · rcases h : busLoop env BusEv.torqueOn (idsForTorque s) s.tick s.torqueEnabled with ⟨ok, t, tr⟩
    cases ok <;> simp [h, reset_command]
  · split
    · rcases h : busLoop env BusEv.torqueOff (idsForTorque s) s.tick s.torqueEnabled with ⟨ok, t, tr⟩
      cases ok <;> simp [h]
    · simp

theorem enable_torque_error (env : BusEnv) (e : Bool) (s : HwState)
    (h : (enable_torque env e s).1 = return_type.ERROR) :
    (enable_torque env e s).2.1.torqueEnabled = s.torqueEnabled ∧
    (enable_torque env e s).2.1.joints = s.joints ∧
    (enable_torque env e s).2.1.virtualJoints = s.virtualJoints ∧
    (enable_torque env e s).2.1.resets = s.resets := by
  unfold enable_torque at *
  revert h
  split
  · rcases hb : busLoop env BusEv.torqueOn (idsForTorque s) s.tick s.torqueEnabled with ⟨ok, t, tr⟩
    cases ok <;> simp [hb]
  · split
    · rcases hb : busLoop env BusEv.torqueOff (idsForTorque s) s.tick s.torqueEnabled with ⟨ok, t, tr⟩
      cases ok <;> simp [hb]
    · simp

theorem enable_torque_trace_kinds (env : BusEnv) (e : Bool) (s : HwState) :
    ∀ p ∈ (enable_torque env e s).2.2, isModeSet p.1 = false ∧ isSyncWrite p.1 = false := by
  unfold enable_torque
  split
  · rcases hb : busLoop env BusEv.torqueOn (idsForTorque s) s.tick s.torqueEnabled with ⟨ok, t, tr⟩
    intro p hp
    have htr : p ∈ tr := by
      cases ok <;> simpa [hb] using hp
    rcases busLoop_trace_mem env BusEv.torqueOn (idsForTorque s) s.tick s.torqueEnabled p
      (by rw [hb]; exact htr) with ⟨i, _, he⟩
    subst he; exact ⟨rfl, rfl⟩
  · split
    · rcases hb : busLoop env BusEv.torqueOff (idsForTorque s) s.tick s.torqueEnabled with ⟨ok, t, tr⟩
      intro p hp
      have htr : p ∈ tr := by
        cases ok <;> simpa [hb] using hp
      rcases busLoop_trace_mem env BusEv.torqueOff (idsForTorque s) s.tick s.torqueEnabled p
        (by rw [hb]; exact htr) with ⟨i, _, he⟩
      subst he; exact ⟨rfl, rfl⟩
    · intro p hp; simp at hp

theorem enable_torque_allok (env : BusEnv) (hok : ∀ k, env.ok k = true) (e : Bool) (s : HwState) :
    (enable_torque env e s).1 = return_type.OK ∧
    (enable_torque env e s).2.1.torqueEnabled = e := by
  unfold enable_torque
  split
  · simp [busLoop_allok env hok]
  · split
    · simp [busLoop_allok env hok]
    · simp

theorem enable_torque_flag_after (env : BusEnv) (e : Bool) (s : HwState) :
    (enable_torque env e s).2.1.torqueEnabled = e ∨
    (enable_torque env e s).2.1.torqueEnabled = s.torqueEnabled := by
  unfold enable_torque
  split
  · rcases hb : busLoop env BusEv.torqueOn (idsForTorque s) s.tick s.torqueEnabled with ⟨ok, t, tr⟩
    cases ok <;> simp [hb, reset_command]
  · split
    · rcases hb : busLoop env BusEv.torqueOff (idsForTorque s) s.tick s.torqueEnabled with ⟨ok, t, tr⟩
      cases ok <;> simp [hb]
    · simp

theorem enable_torque_false_joints (env : BusEnv) (s : HwState) :
    (enable_torque env false s).2.1.joints = s.joints ∧
    (enable_torque env false s).2.1.virtualJoints = s.virtualJoints ∧
    (enable_torque env false s).2.1.resets = s.resets := by
  unfold enable_torque
  split
  · simp_all
  · split
    · rcases hb : busLoop env BusEv.torqueOff (idsForTorque s) s.tick s.torqueEnabled with ⟨ok, t, tr⟩
      cases ok <;> simp [hb]
    · simp

theorem scmBracket_false_eq (env : BusEnv) (e : Bool) (s : HwState) :
    scmBracket env false e s = (s, []) := by
  simp [scmBracket]

theorem scmBracket_frame (env : BusEnv) (t0 e : Bool) (s : HwState) :
    (scmBracket env t0 e s).1.controlMode = s.controlMode ∧
    (scmBracket env t0 e s).1.gripperControlMode = s.gripperControlMode ∧
    (scmBracket env t0 e s).1.jointIds = s.jointIds ∧
    (scmBracket env t0 e s).1.gripperId = s.gripperId ∧
    (scmBracket env t0 e s).1.gripperCurrentLimit = s.gripperCurrentLimit ∧
    (scmBracket env t0 e s).1.useDummy = s.useDummy ∧
    (scmBracket env t0 e s).1.joints.length = s.joints.length ∧
    (scmBracket env t0 e s).1.virtualJoints.length = s.virtualJoints.length := by
  unfold scmBracket
  split
  · exact enable_torque_frame env e s
  · simp

theorem scmBracket_off_joints (env : BusEnv) (t0 : Bool) (s : HwState) :
    (scmBracket env t0 false s).1.joints = s.joints ∧
    (scmBracket env t0 false s).1.virtualJoints = s.virtualJoints ∧
    (scmBracket env t0 false s).1.resets = s.resets := by
  unfold scmBracket
  split
  · exact enable_torque_false_joints env s
  · simp

theorem scmBracket_trace_kinds (env : BusEnv) (t0 e : Bool) (s : HwState) :
    ∀ p ∈ (scmBracket env t0 e s).2, isModeSet p.1 = false ∧ isSyncWrite p.1 = false := by
  unfold scmBracket
  split
  · exact enable_torque_trace_kinds env e s
  · intro p hp; simp at hp

theorem scmBracket_flag (env : BusEnv) (t0 e : Bool) (s : HwState) :
    (scmBracket env t0 e s).1.torqueEnabled = e ∨
    (scmBracket env t0 e s).1.torqueEnabled = s.torqueEnabled := by
  unfold scmBracket
  split
  · exact enable_torque_flag_after env e s
  · right; rfl

theorem scmBracket_off_flag_or (env : BusEnv) (t0 : Bool) (s : HwState) :
    (scmBracket env t0 false s).1.torqueEnabled = s.torqueEnabled ∨
    (scmBracket env t0 false s).1.torqueEnabled = false := by
  rcases scmBracket_flag env t0 false s with h | h
  · right; exact h
  · left; exact h

theorem scmBracket_allok_off (env : BusEnv) (hok : ∀ k, env.ok k = true) (s : HwState) :
    (scmBracket env s.torqueEnabled false s).1.torqueEnabled = false := by
  rcases ht : s.torqueEnabled with _ | _
  · rw [scmBracket_false_eq]; exact ht
  · unfold scmBracket
    simp only [if_true]
    exact (enable_torque_allok env hok false s).2

theorem scmBracket_allok_on_true (env : BusEnv) (hok : ∀ k, env.ok k = true) (s : HwState) :
    (scmBracket env true true s).1.torqueEnabled = true := by
  unfold scmBracket
  simp only [if_true]
  exact (enable_torque_allok env hok true s).2

theorem scmStage_error (env : BusEnv) (mkEv : Nat → BusEv) (ids : List Nat) (nm : ControlMode)
    (s : HwState) (r : return_type) (s' : HwState) (tr : Trace)
    (h : scmStage env mkEv ids nm s = (some r, s', tr)) :
    r = return_type.ERROR ∧
    s'.controlMode = s.controlMode ∧
    s'.gripperControlMode = s.gripperControlMode ∧
    s'.joints = s.joints ∧ s'.virtualJoints = s.virtualJoints ∧ s'.resets = s.resets ∧
    (s'.torqueEnabled = s.torqueEnabled ∨ s'.torqueEnabled = false) := by
  simp only [scmStage] at h
  rcases hb : busLoop env mkEv ids (scmBracket env s.torqueEnabled false s).1.tick
      (scmBracket env s.torqueEnabled false s).1.torqueEnabled with ⟨ok, t, tr2⟩
  rw [hb] at h
  cases ok
  · simp only [Prod.mk.injEq, Option.some.injEq] at h
    obtain ⟨hr, hs, _⟩ := h
    obtain ⟨hj, hv, hres⟩ := scmBracket_off_joints env s.torqueEnabled s
    obtain ⟨hc, hg, _⟩ := scmBracket_frame env s.torqueEnabled false s
    subst hs
    refine ⟨hr.symm, by simpa using hc, by simpa using hg, by simpa using hj,
      by simpa using hv, by simpa using hres, ?_⟩
    simpa using scmBracket_off_flag_or env s.torqueEnabled s
  · simp at h

theorem scmStage_none (env : BusEnv) (mkEv : Nat → BusEv) (ids : List Nat) (nm : ControlMode)
    (s : HwState) (s' : HwState) (tr : Trace)
    (h : scmStage env mkEv ids nm s = (none, s', tr)) :
    s'.controlMode = nm ∧
    s'.gripperControlMode = s.gripperControlMode ∧
    s'.jointIds = s.jointIds ∧
    s'.gripperId = s.gripperId ∧
    s'.gripperCurrentLimit = s.gripperCurrentLimit ∧
    s'.useDummy = s.useDummy ∧
    s'.joints.length = s.joints.length ∧
    s'.virtualJoints.length = s.virtualJoints.length := by
  simp only [scmStage] at h
  rcases hb : busLoop env mkEv ids (scmBracket env s.torqueEnabled false s).1.tick
      (scmBracket env s.torqueEnabled false s).1.torqueEnabled with ⟨ok, t, tr2⟩
  rw [hb] at h
  cases ok
  · simp at h
  · simp only [Prod.mk.injEq] at h
    obtain ⟨_, hs, _⟩ := h
    obtain ⟨hc1, hg1, hji1, hgi1, hgl1, hd1, hjl1, hvl1⟩ :=
      scmBracket_frame env s.torqueEnabled false s
    obtain ⟨hc2, hg2, hji2, hgi2, hgl2, hd2, hjl2, hvl2⟩ :=
      scmBracket_frame env s.torqueEnabled true
        { (scmBracket env s.torqueEnabled false s).1 with tick := t, controlMode := nm }
    subst hs
    exact ⟨by simpa using hc2, by simp_all, by simp_all, by simp_all, by simp_all, by simp_all,
      by simp_all, by simp_all⟩

theorem scmStage_torque_false (env : BusEnv) (mkEv : Nat → BusEv) (ids : List Nat)
    (nm : ControlMode) (s : HwState) (ht : s.torqueEnabled = false) :
    (scmStage env mkEv ids nm s).2.1.torqueEnabled = false := by
  simp only [scmStage, ht, scmBracket_false_eq]
  rcases hb : busLoop env mkEv ids s.tick false with ⟨ok, t, tr2⟩
  cases ok <;> simp [ht, scmBracket_false_eq]

theorem scmStage_trace_kinds (env : BusEnv) (mkEv : Nat → BusEv)
    (hmk : ∀ id, isSyncWrite (mkEv id) = false) (ids : List Nat) (nm : ControlMode)
    (s : HwState) :
    ∀ p ∈ (scmStage env mkEv ids nm s).2.2, isSyncWrite p.1 = false := by
  simp only [scmStage]
  rcases hb : busLoop env mkEv ids (scmBracket env s.torqueEnabled false s).1.tick
      (scmBracket env s.torqueEnabled false s).1.torqueEnabled with ⟨ok, t, tr2⟩
  have htr2 : ∀ p ∈ tr2, isSyncWrite p.1 = false := by
    intro p hp
    rcases busLoop_trace_mem env mkEv ids (scmBracket env s.torqueEnabled false s).1.tick
      (scmBracket env s.torqueEnabled false s).1.torqueEnabled p (by rw [hb]; exact hp)
      with ⟨i, _, he⟩
    subst he; exact hmk i
  cases ok
  · intro p hp
    simp only [List.mem_append] at hp
    rcases hp with hp | hp
    · exact (scmBracket_trace_kinds env s.torqueEnabled false s p hp).2
    · exact htr2 p hp
  · intro p hp
    simp only [List.mem_append] at hp
    rcases hp with (hp | hp) | hp
    · exact (scmBracket_trace_kinds env s.torqueEnabled false s p hp).2
    · exact htr2 p hp
    · exact (scmBracket_trace_kinds env s.torqueEnabled true _ p hp).2

theorem scmStage_allok (env : BusEnv) (hok : ∀ k, env.ok k = true) (mkEv : Nat → BusEv)
    (ids : List Nat) (nm : ControlMode) (s : HwState) :
    (scmStage env mkEv ids nm s).1 = none ∧
    (scmStage env mkEv ids nm s).2.1.controlMode = nm ∧
    (scmStage env mkEv ids nm s).2.1.torqueEnabled = s.torqueEnabled ∧
    (∀ p ∈ (scmStage env mkEv ids nm s).2.2, isModeSet p.1 = true → p.2 = false) := by
  rcases ht : s.torqueEnabled with _ | _
  · refine ⟨?_, ?_, ?_, ?_⟩ <;>
      simp [scmStage, ht, scmBracket_false_eq, busLoop_allok env hok, isModeSet]
  · refine ⟨?_, ?_, ?_, ?_⟩ <;>
      simp [scmStage, scmBracket, enable_torque, ht, busLoop_allok env hok, reset_command,
        isModeSet]

theorem scmGripper_frame (env : BusEnv) (f : Bool) (s : HwState) :
    (scmGripper env f s).2.1.controlMode = s.controlMode ∧
    (scmGripper env f s).2.1.jointIds = s.jointIds ∧
    (scmGripper env f s).2.1.gripperId = s.gripperId ∧
    (scmGripper env f s).2.1.gripperCurrentLimit = s.gripperCurrentLimit ∧
    (scmGripper env f s).2.1.useDummy = s.useDummy ∧
    (scmGripper env f s).2.1.joints.length = s.joints.length ∧
    (scmGripper env f s).2.1.virtualJoints.length = s.virtualJoints.length := by
  unfold scmGripper
  split
  all_goals dsimp only
  · obtain ⟨hc1, hg1, hji1, hgi1, hgl1, hd1, hjl1, hvl1⟩ :=
      scmBracket_frame env s.torqueEnabled false s
    split
    · split
      · obtain ⟨hc2, hg2, hji2, hgi2, hgl2, hd2, hjl2, hvl2⟩ :=
          scmBracket_frame env s.torqueEnabled true
            { (scmBracket env s.torqueEnabled false s).1 with
              tick := (scmBracket env s.torqueEnabled false s).1.tick + 1 + 1,
              gripperControlMode := ControlMode.CurrentBasedPosition }
        exact ⟨by simp_all, by simp_all, by simp_all, by simp_all, by simp_all, by simp_all,
          by simp_all⟩
      · exact ⟨by simp_all, by simp_all, by simp_all, by simp_all, by simp_all, by simp_all,
          by simp_all⟩
    · exact ⟨by simp_all, by simp_all, by simp_all, by simp_all, by simp_all, by simp_all,
      by simp_all⟩
  · simp

theorem scmGripper_mode_cases (env : BusEnv) (f : Bool) (s : HwState) :
    (scmGripper env f s).2.1.gripperControlMode = s.gripperControlMode ∨
    (scmGripper env f s).2.1.gripperControlMode = ControlMode.CurrentBasedPosition := by
  unfold scmGripper
  split
  all_goals dsimp only
  · obtain ⟨hc1, hg1, _⟩ := scmBracket_frame env s.torqueEnabled false s
    split
    · split
      · right
        obtain ⟨hc2, hg2, _⟩ :=
          scmBracket_frame env s.torqueEnabled true
            { (scmBracket env s.torqueEnabled false s).1 with
              tick := (scmBracket env s.torqueEnabled false s).1.tick + 1 + 1,
              gripperControlMode := ControlMode.CurrentBasedPosition }
        simpa using hg2
      · left; simpa using hg1
    · left; simpa using hg1
  · left; rfl

theorem scmGripper_error (env : BusEnv) (f : Bool) (s : HwState)
    (h : (scmGripper env f s).1 = return_type.ERROR) :
    (scmGripper env f s).2.1.gripperControlMode = s.gripperControlMode ∧
    ((scmGripper env f s).2.1.torqueEnabled = s.torqueEnabled ∨
     (scmGripper env f s).2.1.torqueEnabled = false) := by
  revert h
  unfold scmGripper
  split
  all_goals dsimp only
  · obtain ⟨hc1, hg1, _⟩ := scmBracket_frame env s.torqueEnabled false s
    split
    · split
      · intro h; simp at h
      · intro _
        refine ⟨by simpa using hg1, ?_⟩
        simpa using scmBracket_off_flag_or env s.torqueEnabled s
    · intro _
      refine ⟨by simpa using hg1, ?_⟩
      simpa using scmBracket_off_flag_or env s.torqueEnabled s
  · intro h; simp at h

theorem scmGripper_torque_false (env : BusEnv) (f : Bool) (s : HwState)
    (ht : s.torqueEnabled = false) :
    (scmGripper env f s).2.1.torqueEnabled = false := by
  unfold scmGripper
  split
  all_goals dsimp only
  · simp only [ht, scmBracket_false_eq]
    split
    · split
      · simp [ht, scmBracket_false_eq]
      · rfl
    · rfl
  · exact ht

theorem scmGripper_trace_kinds (env : BusEnv) (f : Bool) (s : HwState) :
    ∀ p ∈ (scmGripper env f s).2.2, isSyncWrite p.1 = false := by
  unfold scmGripper
  split
  all_goals dsimp only
  · split
    · split
      · intro p hp
        simp only [List.append_assoc, List.mem_append, List.mem_cons, List.mem_singleton,
          List.not_mem_nil, or_false] at hp
        rcases hp with hp | (hp | hp) | hp
        · exact (scmBracket_trace_kinds env s.torqueEnabled false s p hp).2
        · subst hp; rfl
        · subst hp; rfl
        · exact (scmBracket_trace_kinds env s.torqueEnabled true _ p hp).2
      · intro p hp
        simp only [List.append_assoc, List.mem_append, List.mem_cons, List.mem_singleton,
          List.not_mem_nil, or_false] at hp
        rcases hp with hp | hp | hp
        · exact (scmBracket_trace_kinds env s.torqueEnabled false s p hp).2
        · subst hp; rfl
        · subst hp; rfl
    · intro p hp
      simp only [List.mem_append, List.mem_singleton] at hp
      rcases hp with hp | hp
      · exact (scmBracket_trace_kinds env s.torqueEnabled false s p hp).2
      · subst hp; rfl
  · intro p hp; simp at hp

theorem scmGripper_ok_mode (env : BusEnv) (f : Bool) (s : HwState)
    (h : (scmGripper env f s).1 = return_type.OK) (hg : s.gripperId ≠ 255) :
    (scmGripper env f s).2.1.gripperControlMode = ControlMode.CurrentBasedPosition := by
  revert h
  unfold scmGripper
  split
  all_goals dsimp only
  · split
    · split
      · intro _
        obtain ⟨hc2, hg2, _⟩ :=
          scmBracket_frame env s.torqueEnabled true
            { (scmBracket env s.torqueEnabled false s).1 with
              tick := (scmBracket env s.torqueEnabled false s).1.tick + 1 + 1,
              gripperControlMode := ControlMode.CurrentBasedPosition }
        simpa using hg2
      · intro h; simp at h
    · intro h; simp at h
  · rename_i hcond
    intro _
    rcases not_and_or.mp hcond with hc | hc
    · exact absurd hg hc
    · have h2 : s.gripperControlMode = ControlMode.CurrentBasedPosition := by
        rcases not_or.mp hc with ⟨_, h4⟩
        exact not_not.mp h4
      exact h2

theorem scmGripper_allok (env : BusEnv) (hok : ∀ k, env.ok k = true) (f : Bool) (s : HwState) :
    (scmGripper env f s).1 = return_type.OK ∧
    (scmGripper env f s).2.1.torqueEnabled = s.torqueEnabled ∧
    (∀ p ∈ (scmGripper env f s).2.2, isModeSet p.1 = true → p.2 = false) := by
  rcases ht : s.torqueEnabled with _ | _
  · unfold scmGripper
    split
    · dsimp only
      refine ⟨?_, ?_, ?_⟩ <;>
        simp [ht, scmBracket_false_eq, hok, isModeSet]
    · exact ⟨rfl, ht, by intro p hp; simp at hp⟩
  · unfold scmGripper
    split
    · dsimp only
      refine ⟨?_, ?_, ?_⟩ <;>
        simp [scmBracket, enable_torque, ht, busLoop_allok env hok, reset_command, hok, isModeSet]
    · exact ⟨rfl, ht, by intro p hp; simp at hp⟩

theorem enable_torque_virtual_states (env : BusEnv) (e : Bool) (s : HwState) :
    (enable_torque env e s).2.1.virtualJoints.map (fun j => j.state) =
      s.virtualJoints.map (fun j => j.state) := by
  unfold enable_torque
  split
  · rcases hb : busLoop env BusEv.torqueOn (idsForTorque s) s.tick s.torqueEnabled with ⟨ok, t, tr⟩
    cases ok <;> simp [hb, reset_command, resetJoint, List.map_map, Function.comp]
  · split
    · rcases hb : busLoop env BusEv.torqueOff (idsForTorque s) s.tick s.torqueEnabled with ⟨ok, t, tr⟩
      cases ok <;> simp [hb]
    · simp

theorem scmBracket_virtual_states (env : BusEnv) (t0 e : Bool) (s : HwState) :
    (scmBracket env t0 e s).1.virtualJoints.map (fun j => j.state) =
      s.virtualJoints.map (fun j => j.state) := by
  unfold scmBracket
  split
  · exact enable_torque_virtual_states env e s
  · rfl

theorem scmStage_virtual_states (env : BusEnv) (mkEv : Nat → BusEv) (ids : List Nat)
    (nm : ControlMode) (s : HwState) :
    (scmStage env mkEv ids nm s).2.1.virtualJoints.map (fun j => j.state) =
      s.virtualJoints.map (fun j => j.state) := by
  unfold scmStage
  dsimp only
  rcases hb : busLoop env mkEv ids (scmBracket env s.torqueEnabled false s).1.tick
      (scmBracket env s.torqueEnabled false s).1.torqueEnabled with ⟨ok, t, tr2⟩
  cases ok
  · simpa using scmBracket_virtual_states env s.torqueEnabled false s
  · have h2 := scmBracket_virtual_states env s.torqueEnabled true
      { (scmBracket env s.torqueEnabled false s).1 with tick := t, controlMode := nm }
    have h1 := scmBracket_virtual_states env s.torqueEnabled false s
    simp only at h2
    simpa [h2] using h1

theorem scmGripper_virtual_states (env : BusEnv) (f : Bool) (s : HwState) :
    (scmGripper env f s).2.1.virtualJoints.map (fun j => j.state) =
      s.virtualJoints.map (fun j => j.state) := by
  unfold scmGripper
  split
  all_goals dsimp only
  · split
    · split
      · have h2 := scmBracket_virtual_states env s.torqueEnabled true
          { (scmBracket env s.torqueEnabled false s).1 with
            tick := (scmBracket env s.torqueEnabled false s).1.tick + 1 + 1,
            gripperControlMode := ControlMode.CurrentBasedPosition }
        have h1 := scmBracket_virtual_states env s.torqueEnabled false s
        simp only at h2
        simpa [h2] using h1
      · simpa using scmBracket_virtual_states env s.torqueEnabled false s
    · simpa using scmBracket_virtual_states env s.torqueEnabled false s

theorem scm_virtual_states (env : BusEnv) (m : ControlMode) (f : Bool) (s : HwState) :
    (set_control_mode env m f s).2.1.virtualJoints.map (fun j => j.state) =
      s.virtualJoints.map (fun j => j.state) := by
  unfold set_control_mode
  split
  · rcases hst : scmStage env BusEv.setVelocityMode s.jointIds ControlMode.Velocity s
      with ⟨o, s1, tr1⟩
    have h1 := scmStage_virtual_states env BusEv.setVelocityMode s.jointIds ControlMode.Velocity s
    rw [hst] at h1
    cases o
    · have h2 := scmGripper_virtual_states env f s1
      simp only at h1
      simp [h2, h1]
    · simpa using h1
  · split
    · rcases hst : scmStage env BusEv.setPositionMode s.jointIds ControlMode.Position s
        with ⟨o, s1, tr1⟩
      have h1 := scmStage_virtual_states env BusEv.setPositionMode s.jointIds ControlMode.Position s
      rw [hst] at h1
      cases o
      · have h2 := scmGripper_virtual_states env f s1
        simp only at h1
        simp [h2, h1]
      · simpa using h1
    · split
      · rfl
      · exact scmGripper_virtual_states env f s

theorem scm_error (env : BusEnv) (m : ControlMode) (f : Bool) (s : HwState)
    (h : (set_control_mode env m f s).1 = return_type.ERROR) :
    (set_control_mode env m f s).2.1.gripperControlMode = s.gripperControlMode ∧
    ((set_control_mode env m f s).2.1.controlMode = s.controlMode ∨
     (set_control_mode env m f s).2.1.controlMode = m) ∧
    ((set_control_mode env m f s).2.1.torqueEnabled = s.torqueEnabled ∨
     (set_control_mode env m f s).2.1.torqueEnabled = false) := by
  revert h
  unfold set_control_mode
  split
  · rename_i hcond
    rcases hst : scmStage env BusEv.setVelocityMode s.jointIds ControlMode.Velocity s
      with ⟨o, s1, tr1⟩
    cases o with
    | some r =>
      intro _
      obtain ⟨hr, hcm, hgm, _, _, _, htq⟩ :=
        scmStage_error env BusEv.setVelocityMode s.jointIds ControlMode.Velocity s r s1 tr1 hst
      exact ⟨hgm, Or.inl hcm, htq⟩
    | none =>
      intro h
      obtain ⟨hcm1, hgm1, _⟩ :=
        scmStage_none env BusEv.setVelocityMode s.jointIds ControlMode.Velocity s s1 tr1 hst
      obtain ⟨hgm2, htq2⟩ := scmGripper_error env f s1 (by simpa using h)
      obtain ⟨hcm2, _⟩ := scmGripper_frame env f s1
      refine ⟨by simp_all, Or.inr (by simp only [hcond.1]; simpa [hcm1] using hcm2), ?_⟩
      rcases ht : s.torqueEnabled with _ | _
      · have hs1 := scmStage_torque_false env BusEv.setVelocityMode s.jointIds
          ControlMode.Velocity s ht
        rw [hst] at hs1
        simp only at hs1
        exact Or.inr (by simpa using scmGripper_torque_false env f s1 hs1)
      · rcases hgt : (scmGripper env f s1).2.1.torqueEnabled with _ | _
        · exact Or.inr (by simpa using hgt)
        · exact Or.inl rfl
  · split
    · rename_i hcond1 hcond
      rcases hst : scmStage env BusEv.setPositionMode s.jointIds ControlMode.Position s
        with ⟨o, s1, tr1⟩
      cases o with
      | some r =>
        intro _
        obtain ⟨hr, hcm, hgm, _, _, _, htq⟩ :=
          scmStage_error env BusEv.setPositionMode s.jointIds ControlMode.Position s r s1 tr1 hst
        exact ⟨hgm, Or.inl hcm, htq⟩
      | none =>
        intro h
        obtain ⟨hcm1, hgm1, _⟩ :=
          scmStage_none env BusEv.setPositionMode s.jointIds ControlMode.Position s s1 tr1 hst
        obtain ⟨hgm2, htq2⟩ := scmGripper_error env f s1 (by simpa using h)
        obtain ⟨hcm2, _⟩ := scmGripper_frame env f s1
        refine ⟨by simp_all, Or.inr (by simp only [hcond.1]; simpa [hcm1] using hcm2), ?_⟩
        rcases ht : s.torqueEnabled with _ | _
        · have hs1 := scmStage_torque_false env BusEv.setPositionMode s.jointIds
            ControlMode.Position s ht
          rw [hst] at hs1
          simp only at hs1
          exact Or.inr (by simpa using scmGripper_torque_false env f s1 hs1)
        · rcases hgt : (scmGripper env f s1).2.1.torqueEnabled with _ | _
          · exact Or.inr (by simpa using hgt)
          · exact Or.inl rfl
    · split
      · intro _
        exact ⟨rfl, Or.inl rfl, Or.inl rfl⟩
      · intro h
        obtain ⟨hgm2, htq2⟩ := scmGripper_error env f s (by simpa using h)
        obtain ⟨hcm2, _⟩ := scmGripper_frame env f s
        exact ⟨by simpa using hgm2, Or.inl (by simpa using hcm2), by simpa using htq2⟩

theorem scm_allok (env : BusEnv) (hok : ∀ k, env.ok k = true) (m : ControlMode) (f : Bool)
    (s : HwState) :
    (∀ p ∈ (set_control_mode env m f s).2.2, isModeSet p.1 = true → p.2 = false) ∧
    (set_control_mode env m f s).2.1.torqueEnabled = s.torqueEnabled := by
  unfold set_control_mode
  split
  · rcases hst : scmStage env BusEv.setVelocityMode s.jointIds ControlMode.Velocity s
      with ⟨o, s1, tr1⟩
    obtain ⟨hnone, _, htq, htr⟩ :=
      scmStage_allok env hok BusEv.setVelocityMode s.jointIds ControlMode.Velocity s
    rw [hst] at hnone htq htr
    simp only at hnone htq htr
    subst hnone
    obtain ⟨_, gtq, gtr⟩ := scmGripper_allok env hok f s1
    constructor
    · intro p hp
      rcases List.mem_append.mp (by simpa using hp) with hp2 | hp2
      · exact htr p hp2
      · exact gtr p hp2
    · simpa [gtq] using htq
  · split
    · rcases hst : scmStage env BusEv.setPositionMode s.jointIds ControlMode.Position s
        with ⟨o, s1, tr1⟩
      obtain ⟨hnone, _, htq, htr⟩ :=
        scmStage_allok env hok BusEv.setPositionMode s.jointIds ControlMode.Position s
      rw [hst] at hnone htq htr
      simp only at hnone htq htr
      subst hnone
      obtain ⟨_, gtq, gtr⟩ := scmGripper_allok env hok f s1
      constructor
      · intro p hp
        rcases List.mem_append.mp (by simpa using hp) with hp2 | hp2
        · exact htr p hp2
        · exact gtr p hp2
      · simpa [gtq] using htq
    · split
      · exact ⟨by intro p hp; simp at hp, rfl⟩
      · obtain ⟨_, gtq, gtr⟩ := scmGripper_allok env hok f s
        exact ⟨gtr, gtq⟩

theorem scm_no_syncWrite (env : BusEnv) (m : ControlMode) (f : Bool) (s : HwState) :
    ∀ p ∈ (set_control_mode env m f s).2.2, isSyncWrite p.1 = false := by
  unfold set_control_mode
  split
  · rcases hst : scmStage env BusEv.setVelocityMode s.jointIds ControlMode.Velocity s
      with ⟨o, s1, tr1⟩
    have hk := scmStage_trace_kinds env BusEv.setVelocityMode (fun _ => rfl) s.jointIds
      ControlMode.Velocity s
    rw [hst] at hk
    simp only at hk
    cases o
    · intro p hp
      rcases List.mem_append.mp (by simpa using hp) with hp2 | hp2
      · exact hk p hp2
      · exact scmGripper_trace_kinds env f s1 p hp2
    · intro p hp
      exact hk p (by simpa using hp)
  · split
    · rcases hst : scmStage env BusEv.setPositionMode s.jointIds ControlMode.Position s
        with ⟨o, s1, tr1⟩
      have hk := scmStage_trace_kinds env BusEv.setPositionMode (fun _ => rfl) s.jointIds
        ControlMode.Position s
      rw [hst] at hk
      simp only at hk
      cases o
      · intro p hp
        rcases List.mem_append.mp (by simpa using hp) with hp2 | hp2
        · exact hk p hp2
        · exact scmGripper_trace_kinds env f s1 p hp2
      · intro p hp
        exact hk p (by simpa using hp)
    · split
      · intro p hp; simp at hp
      · exact scmGripper_trace_kinds env f s

theorem scm_gripper_cases (env : BusEnv) (m : ControlMode) (f : Bool) (s : HwState) :
    (set_control_mode env m f s).2.1.gripperControlMode = s.gripperControlMode ∨
    (set_control_mode env m f s).2.1.gripperControlMode = ControlMode.CurrentBasedPosition := by
  unfold set_control_mode
  split
  · rcases hst : scmStage env BusEv.setVelocityMode s.jointIds ControlMode.Velocity s
      with ⟨o, s1, tr1⟩
    cases o with
    | some r =>
      obtain ⟨_, _, hgm, _⟩ :=
        scmStage_error env BusEv.setVelocityMode s.jointIds ControlMode.Velocity s r s1 tr1 hst
      exact Or.inl hgm
    | none =>
      obtain ⟨_, hgm1, _⟩ :=
        scmStage_none env BusEv.setVelocityMode s.jointIds ControlMode.Velocity s s1 tr1 hst
      rcases scmGripper_mode_cases env f s1 with hc | hc
      · exact Or.inl (by simpa [hgm1] using hc)
      · exact Or.inr (by simpa using hc)
  · split
    · rcases hst : scmStage env BusEv.setPositionMode s.jointIds ControlMode.Position s
        with ⟨o, s1, tr1⟩
      cases o with
      | some r =>
        obtain ⟨_, _, hgm, _⟩ :=
          scmStage_error env BusEv.setPositionMode s.jointIds ControlMode.Position s r s1 tr1 hst
        exact Or.inl hgm
      | none =>
        obtain ⟨_, hgm1, _⟩ :=
          scmStage_none env BusEv.setPositionMode s.jointIds ControlMode.Position s s1 tr1 hst
        rcases scmGripper_mode_cases env f s1 with hc | hc
        · exact Or.inl (by simpa [hgm1] using hc)
        · exact Or.inr (by simpa using hc)
    · split
      · exact Or.inl rfl
      · rcases scmGripper_mode_cases env f s with hc | hc
        · exact Or.inl (by simpa using hc)
        · exact Or.inr (by simpa using hc)

theorem scm_ok_gripper (env : BusEnv) (m : ControlMode) (f : Bool) (s : HwState)
    (hok : (set_control_mode env m f s).1 = return_type.OK) (hg : s.gripperId ≠ 255) :
    (set_control_mode env m f s).2.1.gripperControlMode = ControlMode.CurrentBasedPosition := by
  revert hok
  unfold set_control_mode
  split
  · rcases hst : scmStage env BusEv.setVelocityMode s.jointIds ControlMode.Velocity s
      with ⟨o, s1, tr1⟩
    cases o with
    | some r =>
      intro hok
      obtain ⟨hr, _⟩ :=
        scmStage_error env BusEv.setVelocityMode s.jointIds ControlMode.Velocity s r s1 tr1 hst
      subst hr
      simp at hok
    | none =>
      intro hok
      obtain ⟨_, _, _, hgi1, _⟩ :=
        scmStage_none env BusEv.setVelocityMode s.jointIds ControlMode.Velocity s s1 tr1 hst
      exact scmGripper_ok_mode env f s1 (by simpa using hok) (by rw [hgi1]; exact hg)
  · split
    · rcases hst : scmStage env BusEv.setPositionMode s.jointIds ControlMode.Position s
        with ⟨o, s1, tr1⟩
      cases o with
      | some r =>
        intro hok
        obtain ⟨hr, _⟩ :=
          scmStage_error env BusEv.setPositionMode s.jointIds ControlMode.Position s r s1 tr1 hst
        subst hr
        simp at hok
      | none =>
        intro hok
        obtain ⟨_, _, _, hgi1, _⟩ :=
          scmStage_none env BusEv.setPositionMode s.jointIds ControlMode.Position s s1 tr1 hst
        exact scmGripper_ok_mode env f s1 (by simpa using hok) (by rw [hgi1]; exact hg)
    · split
      · intro hok; simp at hok
      · intro hok
        exact scmGripper_ok_mode env f s (by simpa using hok) hg

theorem range_map_getD (l : List Nat) :
    (List.range l.length).map (fun i => l.getD i 0) = l := by
  induction l with
  | nil => simp
  | cons a t ih =>
    rw [List.length_cons, List.range_succ_eq_map, List.map_cons, List.map_map]
    have hcomp : ((fun i => (a :: t).getD i 0) ∘ Nat.succ) = (fun i => t.getD i 0) := by
      funext i; rfl
    rw [List.getD_cons_zero, hcomp, ih]

/-- A bus environment in which every call succeeds, reads return 0, and every
converter returns 0. -/
def envOK : BusEnv :=
  { ok := fun _ => true
    readVals := fun _ _ => 0
    convertValue2Radian := fun _ _ => Dbl.val 0
    convertValue2Velocity := fun _ _ => Dbl.val 0
    convertValue2Current := fun _ => Dbl.val 0
    convertVelocity2Value := fun _ _ => 0
    convertRadian2Value := fun _ _ => 0
    convertCurrent2Value := fun _ _ => 0 }

/-- One device-backed joint (id 1) with an all-zero command except a nonzero
effort; not in dummy mode. -/
def c4state : HwState :=
  { joints := [⟨"j1", ⟨Dbl.val 0, Dbl.val 0, Dbl.val 0⟩, ⟨Dbl.val 0, Dbl.val 0, Dbl.val 1⟩⟩]
    virtualJoints := []
    jointIds := [1]
    gripperId := 255
    gripperCurrentLimit := Dbl.val 0
    useDummy := false
    torqueEnabled := false
    controlMode := ControlMode.Position
    gripperControlMode := ControlMode.Unset
    tick := 0
    resets := 0 }

/-- Claim C4: for every joint array (not in dummy mode) in which every
device-backed joint's command velocity equals zero (under the source's `!=`
test) and at least one device-backed joint's command effort differs from
zero, `write` returns an error result, issues no bus calls at all, and leaves
the tracked group control mode (as well as the gripper mode and torque flag)
unchanged. -/
theorem C4_effort_rejection (env : BusEnv) (s : HwState)
    (hd : s.useDummy = false)
    (hv : s.joints.any (fun (j : Joint) => Dbl.ne j.command.velocity (Dbl.val 0)) = false)
    (he : s.joints.any (fun (j : Joint) => Dbl.ne j.command.effort (Dbl.val 0)) = true) :
    (write env s).1 = return_type.ERROR ∧
    (write env s).2.2 = [] ∧
    (write env s).2.1.controlMode = s.controlMode ∧
    (write env s).2.1.gripperControlMode = s.gripperControlMode ∧
    (write env s).2.1.torqueEnabled = s.torqueEnabled := by
  unfold write
  simp [hd, hv, he]

/-- Witness for C4 at a concrete input. -/
theorem C4_effort_rejection_witness :
    (write envOK c4state).1 = return_type.ERROR ∧
    (write envOK c4state).2.2 = [] ∧
    (write envOK c4state).2.1.controlMode = c4state.controlMode ∧
    (write envOK c4state).2.1.gripperControlMode = c4state.gripperControlMode ∧
    (write envOK c4state).2.1.torqueEnabled = c4state.torqueEnabled :=
  C4_effort_rejection envOK c4state (by decide) (by decide) (by decide)

/-- One device-backed joint (id 1) whose state position is 2, torque off. -/
def c8state : HwState :=
  { joints := [⟨"j1", ⟨Dbl.val 2, Dbl.val 3, Dbl.val 4⟩, ⟨Dbl.val 7, Dbl.val 8, Dbl.val 9⟩⟩]
    virtualJoints := [⟨"v1", ⟨Dbl.val 1, Dbl.val 0, Dbl.val 0⟩, ⟨Dbl.val 5, Dbl.val 6, Dbl.val 7⟩⟩]
    jointIds := [1]
    gripperId := 255
    gripperCurrentLimit := Dbl.val 0
    useDummy := false
    torqueEnabled := false
    controlMode := ControlMode.Position
    gripperControlMode := ControlMode.Unset
    tick := 0
    resets := 0 }

/-- Claim C8: calling `enable_torque(true)` when the tracked torque flag is
already true does not invoke `reset_command` (the reset counter and all joint
commands are untouched); calling it when the flag is false results, for every
device-backed and virtual joint, in `command.position = state.position` and
zero commanded velocity and effort immediately after the call succeeds. -/
theorem C8_reset_command_gating (env : BusEnv) (s : HwState) :
    (s.torqueEnabled = true →
      (enable_torque env true s).1 = return_type.OK ∧
      (enable_torque env true s).2.1.resets = s.resets ∧
      (enable_torque env true s).2.1.joints = s.joints ∧
      (enable_torque env true s).2.1.virtualJoints = s.virtualJoints) ∧
    (s.torqueEnabled = false →
      (enable_torque env true s).1 = return_type.OK →
      (∀ j ∈ (enable_torque env true s).2.1.joints,
        j.command.position = j.state.position ∧ j.command.velocity = Dbl.val 0 ∧
        j.command.effort = Dbl.val 0) ∧
      (∀ j ∈ (enable_torque env true s).2.1.virtualJoints,
        j.command.position = j.state.position ∧ j.command.velocity = Dbl.val 0 ∧
        j.command.effort = Dbl.val 0)) := by
  constructor
  · intro ht
    unfold enable_torque
    simp [ht]
  · intro ht
    unfold enable_torque
    rcases hb : busLoop env BusEv.torqueOn (idsForTorque s) s.tick s.torqueEnabled with ⟨ok, t, tr⟩
    cases ok
    · intro h
      simp [ht, hb] at h
    · intro _
      refine ⟨?_, ?_⟩ <;> simp [ht, hb, reset_command, resetJoint]

/-- Witness for C8: both conjuncts instantiated — at `c4state` with the flag
forced on for the idempotence part, and at `c8state` (flag off) for the
reset part. -/
theorem C8_reset_command_gating_witness :
    ((enable_torque envOK true { c4state with torqueEnabled := true }).1 = return_type.OK ∧
     (enable_torque envOK true { c4state with torqueEnabled := true }).2.1.resets =
       ({ c4state with torqueEnabled := true } : HwState).resets ∧
     (enable_torque envOK true { c4state with torqueEnabled := true }).2.1.joints =
       ({ c4state with torqueEnabled := true } : HwState).joints ∧
     (enable_torque envOK true { c4state with torqueEnabled := true }).2.1.virtualJoints =
       ({ c4state with torqueEnabled := true } : HwState).virtualJoints) ∧
    ((∀ j ∈ (enable_torque envOK true c8state).2.1.joints,
        j.command.position = j.state.position ∧ j.command.velocity = Dbl.val 0 ∧
        j.command.effort = Dbl.val 0) ∧
     (∀ j ∈ (enable_torque envOK true c8state).2.1.virtualJoints,
        j.command.position = j.state.position ∧ j.command.velocity = Dbl.val 0 ∧
        j.command.effort = Dbl.val 0)) :=
  ⟨(C8_reset_command_gating envOK { c4state with torqueEnabled := true }).1 (by decide),
   (C8_reset_command_gating envOK c8state).2 (by decide) (by decide)⟩

/-- A device-backed joint commanding a nonzero velocity while torque is on and
the tracked mode is Position, plus one virtual joint with a nonzero commanded
velocity: `write` triggers a Velocity transition whose torque re-enable calls
`reset_command`, zeroing the virtual joint's commanded velocity after its
state was loop-backed. -/
def c7state : HwState :=
  { joints := [⟨"j1", ⟨Dbl.val 0, Dbl.val 0, Dbl.val 0⟩, ⟨Dbl.val 0, Dbl.val 1, Dbl.val 0⟩⟩]
    virtualJoints := [⟨"v1", ⟨Dbl.val 0, Dbl.val 0, Dbl.val 0⟩, ⟨Dbl.val 2, Dbl.val 5, Dbl.val 0⟩⟩]
    jointIds := [1]
    gripperId := 255
    gripperCurrentLimit := Dbl.val 0
    useDummy := false
    torqueEnabled := true
    controlMode := ControlMode.Position
    gripperControlMode := ControlMode.Unset
    tick := 0
    resets := 0 }

/-- Counterexample to claim C7 as stated: after this `write` call the virtual
joint's state velocity (5) differs from its command velocity (0, zeroed by the
`reset_command` run inside the triggered mode transition). -/
theorem C7_counterexample :
    ((write envOK c7state).2.1.virtualJoints.getD 0 jointDefault).state.velocity ≠
      ((write envOK c7state).2.1.virtualJoints.getD 0 jointDefault).command.velocity := by
  decide

/-- Claim C7, amended: after every `write` call each virtual joint's state
equals the command it had when the call began; the stricter `state = command`
equality (all three fields) holds in dummy mode and on error cycles, but a
`write` that triggers a mode transition with torque enabled resets commands
after the loop-back, so the commanded velocity/effort may be zeroed while the
state keeps the pre-reset values. -/
theorem C7_virtual_loopback_amended (env : BusEnv) (s : HwState) :
    ((write env s).2.1.virtualJoints.map (fun j => j.state) =
      s.virtualJoints.map (fun j => j.command)) ∧
    (s.useDummy = true →
      ∀ j ∈ (write env s).2.1.virtualJoints, j.state = j.command) ∧
    ((write env s).1 = return_type.ERROR →
      ∀ j ∈ (write env s).2.1.virtualJoints, j.state = j.command) := by
  unfold write
  rcases hd : s.useDummy with _ | _
  · by_cases hv : s.joints.any (fun (j : Joint) => Dbl.ne j.command.velocity (Dbl.val 0)) = true
    · have hvs := scm_virtual_states env ControlMode.Velocity false
        { s with virtualJoints := s.virtualJoints.map (fun (j : Joint) => { j with state := j.command }) }
      rw [hd] at hvs
      refine ⟨?_, ?_, ?_⟩
      · simp only [hd, hv, Bool.false_eq_true, if_false, if_true]
        simpa [List.map_map, Function.comp_def] using hvs
      · intro hdum
        simp at hdum
      · intro h
        simp [hd, hv] at h
    · have hv2 : s.joints.any (fun (j : Joint) => Dbl.ne j.command.velocity (Dbl.val 0)) = false :=
        by simpa using hv
      by_cases he : s.joints.any (fun (j : Joint) => Dbl.ne j.command.effort (Dbl.val 0)) = true
      · refine ⟨?_, ?_, ?_⟩
        · simp [hd, hv2, he, List.map_map, Function.comp_def]
        · intro hdum
          simp at hdum
        · intro _ j hj
          simp only [hd, hv2, he, Bool.false_eq_true, if_false, if_true, List.mem_map] at hj
          rcases hj with ⟨j0, _, rfl⟩
          rfl
      · have he2 : s.joints.any (fun (j : Joint) => Dbl.ne j.command.effort (Dbl.val 0)) = false :=
          by simpa using he
        have hvs := scm_virtual_states env ControlMode.Position false
          { s with virtualJoints := s.virtualJoints.map (fun (j : Joint) => { j with state := j.command }) }
        rw [hd] at hvs
        refine ⟨?_, ?_, ?_⟩
        · simp only [hd, hv2, he2, Bool.false_eq_true, if_false, if_true]
          simpa [List.map_map, Function.comp_def] using hvs
        · intro hdum
          simp at hdum
        · intro h
          simp [hd, hv2, he2] at h
  · refine ⟨?_, ?_, ?_⟩
    · simp [hd, List.map_map, Function.comp_def]
    · intro _ j hj
      simp only [hd, if_true, List.mem_map] at hj
      rcases hj with ⟨j0, _, rfl⟩
      rfl
    · intro h
      simp [hd] at h

/-- Witness for C7 (amended): the dummy-mode and error-cycle conjuncts
instantiated concretely. -/
theorem C7_virtual_loopback_amended_witness :
    ((write envOK { c7state with useDummy := true }).2.1.virtualJoints.map (fun j => j.state) =
      ({ c7state with useDummy := true } : HwState).virtualJoints.map (fun j => j.command)) ∧
    (∀ j ∈ (write envOK { c7state with useDummy := true }).2.1.virtualJoints,
      j.state = j.command) :=
  ⟨(C7_virtual_loopback_amended envOK { c7state with useDummy := true }).1,
   (C7_virtual_loopback_amended envOK { c7state with useDummy := true }).2.1 (by decide)⟩

/-- The virtual-joint loop-back step performed at the top of `write`
(lines 390-395). -/
def loopbackVirtual (s : HwState) : HwState :=
  { s with virtualJoints := s.virtualJoints.map (fun (j : Joint) => { j with state := j.command }) }

/-- Claim C2: for every joint array (not in dummy mode) in which at least one
device-backed joint's command velocity differs from zero, `write` invokes
`set_control_mode(Velocity)` without force, issues exactly one batched sync
write — the velocity one, covering all device ids, carrying the per-joint
converted command velocities as read after the mode call — issues no position
sync write that cycle, and returns success. -/
theorem C2_velocity_priority (env : BusEnv) (s : HwState)
    (hd : s.useDummy = false)
    (hv : s.joints.any (fun (j : Joint) => Dbl.ne j.command.velocity (Dbl.val 0)) = true)
    (hlen : s.jointIds.length = s.joints.length) :
    (write env s).1 = return_type.OK ∧
    (write env s).2.2 =
      (set_control_mode env ControlMode.Velocity false (loopbackVirtual s)).2.2 ++
        [(BusEv.syncWrite kGoalVelocityIndex s.jointIds
            (List.zipWith
              (fun (id : Nat) (j : Joint) => env.convertVelocity2Value id j.command.velocity)
              s.jointIds
              (set_control_mode env ControlMode.Velocity false (loopbackVirtual s)).2.1.joints),
          (set_control_mode env ControlMode.Velocity false (loopbackVirtual s)).2.1.torqueEnabled)] ∧
    (write env s).2.2.countP (fun p => isSyncWrite p.1) = 1 ∧
    (∀ p ∈ (write env s).2.2, isSyncWrite p.1 = true →
      ∃ cmds, p.1 = BusEv.syncWrite kGoalVelocityIndex s.jointIds cmds) := by
  have hids :
      idsVec
        { s with
          useDummy := false,
          virtualJoints := s.virtualJoints.map (fun (j : Joint) => { j with state := j.command }) } =
        s.jointIds := by
    unfold idsVec
    simp only
    rw [← hlen]
    exact range_map_getD s.jointIds
  have hsw := scm_no_syncWrite env ControlMode.Velocity false (loopbackVirtual s)
  unfold loopbackVirtual at hsw
  rw [hd] at hsw
  unfold write loopbackVirtual
  simp only [hd, hv, Bool.false_eq_true, if_false, if_true, hids]
  refine ⟨by simp, by simp, ?_, ?_⟩
  · rw [List.countP_append]
    rw [List.countP_eq_zero.mpr (by intro p hp; simp [hsw p hp])]
    simp [isSyncWrite]
  · intro p hp
    rcases List.mem_append.mp hp with hp2 | hp2
    · exact fun hmode => absurd hmode (by simp [hsw p hp2])
    · intro _
      have hpe := List.mem_singleton.mp hp2
      subst hpe
      exact ⟨_, rfl⟩

/-- Witness for C2 at a concrete input. -/
theorem C2_velocity_priority_witness :
    (write envOK c7state).1 = return_type.OK ∧
    (write envOK c7state).2.2.countP (fun p => isSyncWrite p.1) = 1 :=
  ⟨(C2_velocity_priority envOK c7state (by decide) (by decide) (by decide)).1,
   (C2_velocity_priority envOK c7state (by decide) (by decide) (by decide)).2.2.1⟩

theorem scm_noop_velocity (env : BusEnv) (s : HwState)
    (hcm : s.controlMode = ControlMode.Velocity) (hg : s.gripperId = 255) :
    set_control_mode env ControlMode.Velocity false s = (return_type.OK, s, []) := by
  unfold set_control_mode scmGripper
  simp [hcm, hg]

/-- One device-backed joint (id 1) whose commanded velocity is NaN, already in
Velocity mode, gripper absent, torque off, not in dummy mode: the
NaN-initialized command drives the velocity branch. -/
def c10state : HwState :=
  { joints := [⟨"j1", ⟨Dbl.val 0, Dbl.val 0, Dbl.val 0⟩, ⟨Dbl.val 0, Dbl.nan, Dbl.val 0⟩⟩]
    virtualJoints := []
    jointIds := [1]
    gripperId := 255
    gripperCurrentLimit := Dbl.val 0
    useDummy := false
    torqueEnabled := false
    controlMode := ControlMode.Velocity
    gripperControlMode := ControlMode.Unset
    tick := 0
    resets := 0 }

/-- Claim C10: `write`'s arbitration compares commands to zero with the `!=`
test, under which NaN counts as nonzero.  A NaN command velocity drives the
velocity branch (one velocity sync write, success); all-zero velocities with
a NaN effort drive the effort-unimplemented error with no bus calls and the
mode unchanged; and when no transition is due (mode already Velocity, gripper
absent) the NaN velocity itself is passed to the converter in the batched
write. -/
theorem C10_nan_arbitration (env : BusEnv) (s : HwState) (hd : s.useDummy = false) :
    ((∃ j ∈ s.joints, j.command.velocity = Dbl.nan) →
      (write env s).1 = return_type.OK ∧
      (write env s).2.2.countP (fun p => isSyncWrite p.1) = 1 ∧
      (∀ p ∈ (write env s).2.2, isSyncWrite p.1 = true →
        ∃ ids cmds, p.1 = BusEv.syncWrite kGoalVelocityIndex ids cmds)) ∧
    ((∀ j ∈ s.joints, j.command.velocity = Dbl.val 0) →
      (∃ j ∈ s.joints, j.command.effort = Dbl.nan) →
      (write env s).1 = return_type.ERROR ∧ (write env s).2.2 = [] ∧
      (write env s).2.1.controlMode = s.controlMode) ∧
    (s.controlMode = ControlMode.Velocity → s.gripperId = 255 →
      (∃ j ∈ s.joints, j.command.velocity = Dbl.nan) →
      (write env s).2.2 =
        [(BusEv.syncWrite kGoalVelocityIndex (idsVec s)
            (List.zipWith
              (fun (id : Nat) (j : Joint) => env.convertVelocity2Value id j.command.velocity)
              (idsVec s) s.joints),
          s.torqueEnabled)]) := by
  refine ⟨?_, ?_, ?_⟩
  · intro hnan
    have hv : s.joints.any (fun (j : Joint) => Dbl.ne j.command.velocity (Dbl.val 0)) = true := by
      rcases hnan with ⟨j, hj, hjn⟩
      exact List.any_eq_true.mpr ⟨j, hj, by rw [hjn]; rfl⟩
    have hsw := scm_no_syncWrite env ControlMode.Velocity false (loopbackVirtual s)
    unfold loopbackVirtual at hsw
    rw [hd] at hsw
    unfold write
    simp only [hd, hv, Bool.false_eq_true, if_false, if_true]
    refine ⟨by simp, ?_, ?_⟩
    · rw [List.countP_append]
      rw [List.countP_eq_zero.mpr (by intro p hp; simp [hsw p hp])]
      simp [isSyncWrite]
    · intro p hp
      rcases List.mem_append.mp hp with hp2 | hp2
      · exact fun hmode => absurd hmode (by simp [hsw p hp2])
      · intro _
        have hpe := List.mem_singleton.mp hp2
        subst hpe
        exact ⟨_, _, rfl⟩
  · intro hzero hnan
    have hv : s.joints.any (fun (j : Joint) => Dbl.ne j.command.velocity (Dbl.val 0)) = false := by
      rw [List.any_eq_false]
      intro j hj
      rw [hzero j hj]
      simp [Dbl.ne]
    have he : s.joints.any (fun (j : Joint) => Dbl.ne j.command.effort (Dbl.val 0)) = true := by
      rcases hnan with ⟨j, hj, hjn⟩
      exact List.any_eq_true.mpr ⟨j, hj, by rw [hjn]; rfl⟩
    unfold write
    simp [hd, hv, he]
  · intro hcm hg hnan
    have hv : s.joints.any (fun (j : Joint) => Dbl.ne j.command.velocity (Dbl.val 0)) = true := by
      rcases hnan with ⟨j, hj, hjn⟩
      exact List.any_eq_true.mpr ⟨j, hj, by rw [hjn]; rfl⟩
    have hnoop := scm_noop_velocity env (loopbackVirtual s)
      (by unfold loopbackVirtual; simpa using hcm) (by unfold loopbackVirtual; simpa using hg)
    unfold loopbackVirtual at hnoop
    rw [hd] at hnoop
    unfold write
    simp only [hd, hv, Bool.false_eq_true, if_false, if_true, hnoop]
    simp [idsVec, hd]

/-- Witness for C10: the no-transition conjunct instantiated at `c10state`,
showing the NaN command velocity reaching the converter. -/
theorem C10_nan_arbitration_witness :
    (write envOK c10state).1 = return_type.OK ∧
    (write envOK c10state).2.2 =
      [(BusEv.syncWrite kGoalVelocityIndex (idsVec c10state)
          (List.zipWith
            (fun (id : Nat) (j : Joint) => envOK.convertVelocity2Value id j.command.velocity)
            (idsVec c10state) c10state.joints),
        c10state.torqueEnabled)] :=
  ⟨((C10_nan_arbitration envOK c10state (by decide)).1
      ⟨_, List.mem_cons_self _ _, rfl⟩).1,
   (C10_nan_arbitration envOK c10state (by decide)).2.2 (by decide) (by decide)
      ⟨_, List.mem_cons_self _ _, rfl⟩⟩

theorem getD_replicate_zero (n i : Nat) : (List.replicate n (0 : Int)).getD i 0 = 0 := by
  rcases Nat.lt_or_ge i n with h | h
  · rw [List.getD_eq_getElem _ _ (by simpa using h)]
    simp
  · rw [List.getD_eq_default _ _ (by simpa using h)]

theorem getD_idsVec (s : HwState) (i : Nat) (hi : i < s.joints.length) :
    (idsVec s).getD i 0 = s.jointIds.getD i 0 := by
  unfold idsVec
  rw [List.getD_eq_getElem _ _ (by simpa using hi)]
  simp

theorem getElem?_getD_idsVec (s : HwState) (i : Nat) (hi : i < s.joints.length) :
    (idsVec s)[i]?.getD 0 = s.jointIds[i]?.getD 0 := by
  have h1 := getD_idsVec s i hi
  simpa [List.getD_eq_getElem?_getD] using h1

/-- The environment in which every bus call fails. -/
def c6env : BusEnv := { envOK with ok := fun _ => false }

/-- One device-backed joint with known state (position 5), not in dummy mode. -/
def c6state : HwState :=
  { joints := [⟨"j1", ⟨Dbl.val 5, Dbl.val 5, Dbl.val 5⟩, ⟨Dbl.val 0, Dbl.val 0, Dbl.val 0⟩⟩]
    virtualJoints := []
    jointIds := [1]
    gripperId := 255
    gripperCurrentLimit := Dbl.val 0
    useDummy := false
    torqueEnabled := false
    controlMode := ControlMode.Position
    gripperControlMode := ControlMode.Unset
    tick := 0
    resets := 0 }

/-- Counterexample to claim C6 as stated: with every bus call failing, `read`
returns success but the joint's state position is overwritten with the
converted zero-initialized buffer value (0), not kept at its pre-call value
(5). -/
theorem C6_counterexample :
    (DynamixelHardware.read c6env c6state).1 = return_type.OK ∧
    ((DynamixelHardware.read c6env c6state).2.1.joints.getD 0 jointDefault).state.position ≠
      (c6state.joints.getD 0 jointDefault).state.position := by
  decide

/-- Claim C6, amended: on a read/extraction failure `read` still returns
success, but the joints' states do not keep their pre-call values: the
conversion loop runs unconditionally over the extraction buffers, which keep
whatever was obtained (zero-initialized where nothing was), so when every
call fails each joint's state becomes the unit conversion of raw 0 rather
than remaining stale. -/
theorem C6_read_failure_amended (env : BusEnv) (s : HwState) :
    (DynamixelHardware.read env s).1 = return_type.OK ∧
    (s.useDummy = false → (∀ k, env.ok k = false) →
      ∀ i < s.joints.length,
        ((DynamixelHardware.read env s).2.1.joints.getD i jointDefault).state.position =
          env.convertValue2Radian (s.jointIds.getD i 0) 0 ∧
        ((DynamixelHardware.read env s).2.1.joints.getD i jointDefault).state.velocity =
          env.convertValue2Velocity (s.jointIds.getD i 0) 0 ∧
        ((DynamixelHardware.read env s).2.1.joints.getD i jointDefault).state.effort =
          env.convertValue2Current 0) := by
  constructor
  · unfold DynamixelHardware.read
    split
    · rfl
    · rfl
  · intro hd hfail i hi
    unfold DynamixelHardware.read
    simp only [hd, Bool.false_eq_true, if_false, hfail]
    rw [List.getD_eq_getElem _ _ (by simpa using hi)]
    simp only [List.getElem_map, List.getElem_range]
    refine ⟨?_, ?_, ?_⟩ <;>
      simp [getD_replicate_zero, getD_idsVec s i hi, getElem?_getD_idsVec s i hi]

/-- Witness for C6 (amended) at the all-fail environment. -/
theorem C6_read_failure_amended_witness :
    (DynamixelHardware.read c6env c6state).1 = return_type.OK ∧
    (((DynamixelHardware.read c6env c6state).2.1.joints.getD 0 jointDefault).state.position =
      c6env.convertValue2Radian (c6state.jointIds.getD 0 0) 0 ∧
     ((DynamixelHardware.read c6env c6state).2.1.joints.getD 0 jointDefault).state.velocity =
      c6env.convertValue2Velocity (c6state.jointIds.getD 0 0) 0 ∧
     ((DynamixelHardware.read c6env c6state).2.1.joints.getD 0 jointDefault).state.effort =
      c6env.convertValue2Current 0) :=
  ⟨(C6_read_failure_amended c6env c6state).1,
   (C6_read_failure_amended c6env c6state).2 (by decide) (fun _ => rfl) 0 (by decide)⟩

theorem read_gripper_mode (env : BusEnv) (s : HwState) :
    (DynamixelHardware.read env s).2.1.gripperControlMode = s.gripperControlMode := by
  unfold DynamixelHardware.read
  split
  · rfl
  · rfl

theorem write_gripper_cases (env : BusEnv) (s : HwState) :
    (write env s).2.1.gripperControlMode = s.gripperControlMode ∨
    (write env s).2.1.gripperControlMode = ControlMode.CurrentBasedPosition := by
  unfold write
  rcases hd : s.useDummy with _ | _
  · by_cases hv : s.joints.any (fun (j : Joint) => Dbl.ne j.command.velocity (Dbl.val 0)) = true
    · have hc := scm_gripper_cases env ControlMode.Velocity false (loopbackVirtual s)
      unfold loopbackVirtual at hc
      rw [hd] at hc
      simpa [hd, hv] using hc
    · have hv2 : s.joints.any (fun (j : Joint) => Dbl.ne j.command.velocity (Dbl.val 0)) = false :=
        by simpa using hv
      by_cases he : s.joints.any (fun (j : Joint) => Dbl.ne j.command.effort (Dbl.val 0)) = true
      · simp [hd, hv2, he]
      · have he2 : s.joints.any (fun (j : Joint) => Dbl.ne j.command.effort (Dbl.val 0)) = false :=
          by simpa using he
        have hc := scm_gripper_cases env ControlMode.Position false (loopbackVirtual s)
        unfold loopbackVirtual at hc
        rw [hd] at hc
        simpa [hd, hv2, he2] using hc
  · simp [hd]

/-- A two-joint system whose second joint is the gripper (device id 9,
group id list [1, 9] — as `configure` builds it, the gripper id is also a
group id), torque on, tracked group mode Position, tracked gripper mode
already CurrentBasedPosition. -/
def c3state : HwState :=
  { joints := [⟨"j1", ⟨Dbl.val 0, Dbl.val 0, Dbl.val 0⟩, ⟨Dbl.val 0, Dbl.val 0, Dbl.val 0⟩⟩,
               ⟨"gripper", ⟨Dbl.val 0, Dbl.val 0, Dbl.val 0⟩, ⟨Dbl.val 0, Dbl.val 0, Dbl.val 0⟩⟩]
    virtualJoints := []
    jointIds := [1, 9]
    gripperId := 9
    gripperCurrentLimit := Dbl.val 1
    useDummy := false
    torqueEnabled := true
    controlMode := ControlMode.Position
    gripperControlMode := ControlMode.CurrentBasedPosition
    tick := 0
    resets := 0 }

/-- Claim C3, evaluated at the failing input: with a gripper present (device
id 9, which `configure` also places in the group id list) and its tracked
mode already CurrentBasedPosition, a group transition to Velocity succeeds,
issues the velocity mode-set bus call to the gripper device itself (the group
loop iterates all of `joint_ids_`), and issues no current-based-position call
(the gripper block's edge gate sees the stale tracked flag and is skipped) —
so the gripper device is re-moded to Velocity while the tracked gripper mode
still reads CurrentBasedPosition.  This contradicts the claimed invariant
that the gripper device is always held in current-based-position mode. -/
theorem C3_gripper_remoded_by_group_transition :
    (set_control_mode envOK ControlMode.Velocity false c3state).1 = return_type.OK ∧
    (BusEv.setVelocityMode 9, false) ∈
      (set_control_mode envOK ControlMode.Velocity false c3state).2.2 ∧
    (∀ p ∈ (set_control_mode envOK ControlMode.Velocity false c3state).2.2,
      p.1 ≠ BusEv.setCurrentBasedPositionMode 9) ∧
    (set_control_mode envOK ControlMode.Velocity false c3state).2.1.gripperControlMode =
      ControlMode.CurrentBasedPosition := by
  decide

/-- An environment whose first bus call fails and all later ones succeed. -/
def c1env : BusEnv := { envOK with ok := fun k => decide (0 < k) }

/-- One device-backed joint (id 1), torque on, tracked mode Position, gripper
absent, not in dummy mode. -/
def c1state : HwState :=
  { joints := [⟨"j1", ⟨Dbl.val 0, Dbl.val 0, Dbl.val 0⟩, ⟨Dbl.val 0, Dbl.val 0, Dbl.val 0⟩⟩]
    virtualJoints := []
    jointIds := [1]
    gripperId := 255
    gripperCurrentLimit := Dbl.val 0
    useDummy := false
    torqueEnabled := true
    controlMode := ControlMode.Position
    gripperControlMode := ControlMode.Unset
    tick := 0
    resets := 0 }

/-- Counterexample to claim C1 as stated: when the torque-off bus call inside
the Velocity transition fails (its result is discarded by
`set_control_mode`), the mode-set bus call is still issued while the tracked
torque flag is on — the trace contains `setVelocityMode 1` annotated with
torque flag `true`. -/
theorem C1_counterexample :
    c1state.torqueEnabled = true ∧
    (BusEv.setVelocityMode 1, true) ∈
      (set_control_mode c1env ControlMode.Velocity false c1state).2.2 := by
  decide

/-- Claim C1, amended: provided every bus call issued during the calls
succeeds, then for every sequence of `set_control_mode` calls each mode-set
bus call (setVelocityMode, setPositionControlMode, or the gripper's
current-based-position call) is issued at an instant where the tracked torque
flag is off, and after the sequence the torque flag equals its initial value
(an enabled torque is re-enabled after each completed transition).  Without
that proviso the property fails: a failed torque-off call is ignored and the
mode-set calls go out with tracked torque still on. -/
theorem C1_torque_safety_amended (env : BusEnv) (hok : ∀ k, env.ok k = true)
    (calls : List (ControlMode × Bool)) (s : HwState) :
    (∀ p ∈ (runModeCalls env calls s).2, isModeSet p.1 = true → p.2 = false) ∧
    (runModeCalls env calls s).1.torqueEnabled = s.torqueEnabled := by
  induction calls generalizing s with
  | nil =>
    constructor
    · intro p hp
      simp [runModeCalls] at hp
    · rfl
  | cons c rest ih =>
    rcases c with ⟨m, f⟩
    obtain ⟨h1, h2⟩ := scm_allok env hok m f s
    obtain ⟨ih1, ih2⟩ := ih (set_control_mode env m f s).2.1
    constructor
    · intro p hp
      rcases List.mem_append.mp (by simpa [runModeCalls] using hp) with hp2 | hp2
      · exact h1 p hp2
      · exact ih1 p hp2
    · simp only [runModeCalls]
      rw [ih2, h2]

/-- Witness for C1 (amended): a Velocity transition with torque on under an
all-success environment restores the torque flag, and the issued mode-set
call is annotated with torque off. -/
theorem C1_torque_safety_amended_witness :
    (runModeCalls envOK [(ControlMode.Velocity, false)] c1state).1.torqueEnabled =
      c1state.torqueEnabled ∧
    ((BusEv.setVelocityMode 1, false) : BusEv × Bool).2 = false :=
  ⟨(C1_torque_safety_amended envOK (fun _ => rfl) [(ControlMode.Velocity, false)] c1state).2,
   (C1_torque_safety_amended envOK (fun _ => rfl) [(ControlMode.Velocity, false)] c1state).1
      (BusEv.setVelocityMode 1, false) (by decide) (by decide)⟩

/-- An environment whose first bus call succeeds and all later ones fail. -/
def c5env : BusEnv := { envOK with ok := fun k => decide (k = 0) }

/-- Counterexample to claim C5 as stated: torque is on and the Velocity
transition's torque-off call succeeds, then the first mode-set call fails:
`set_control_mode` returns an error but the tracked torque flag has changed
from true to false rather than being left at its pre-attempt value. -/
theorem C5_counterexample :
    c1state.torqueEnabled = true ∧
    (set_control_mode c5env ControlMode.Velocity false c1state).1 = return_type.ERROR ∧
    (set_control_mode c5env ControlMode.Velocity false c1state).2.1.torqueEnabled = false := by
  decide

/-- Claim C5, amended: a failing `enable_torque` call returns an error and
leaves torque flag, control mode, and gripper mode unchanged; a failing
`set_control_mode` call returns an error and leaves the gripper mode
unchanged, leaves the group mode either unchanged or already advanced to the
requested mode (when the failure occurred in the gripper stage after a
completed group transition), and never turns the torque flag on — but a
failure after a successful torque-off bracket leaves the torque flag off
rather than restored to its pre-attempt value. -/
theorem C5_transition_failure_amended (env : BusEnv) (s : HwState) :
    (∀ e : Bool, (enable_torque env e s).1 = return_type.ERROR →
      (enable_torque env e s).2.1.torqueEnabled = s.torqueEnabled ∧
      (enable_torque env e s).2.1.controlMode = s.controlMode ∧
      (enable_torque env e s).2.1.gripperControlMode = s.gripperControlMode) ∧
    (∀ (m : ControlMode) (f : Bool), (set_control_mode env m f s).1 = return_type.ERROR →
      (set_control_mode env m f s).2.1.gripperControlMode = s.gripperControlMode ∧
      ((set_control_mode env m f s).2.1.controlMode = s.controlMode ∨
       (set_control_mode env m f s).2.1.controlMode = m) ∧
      ((set_control_mode env m f s).2.1.torqueEnabled = s.torqueEnabled ∨
       (set_control_mode env m f s).2.1.torqueEnabled = false)) := by
  constructor
  · intro e he
    exact ⟨(enable_torque_error env e s he).1, (enable_torque_frame env e s).1,
      (enable_torque_frame env e s).2.1⟩
  · intro m f hm
    exact scm_error env m f s hm

/-- Witness for C5 (amended): a failing torque-off call leaves all tracked
flags unchanged; the failing Velocity transition of the counterexample
environment leaves the gripper mode unchanged and does not turn torque on. -/
theorem C5_transition_failure_amended_witness :
    ((enable_torque c6env false { c6state with torqueEnabled := true }).2.1.torqueEnabled =
        ({ c6state with torqueEnabled := true } : HwState).torqueEnabled ∧
      (enable_torque c6env false { c6state with torqueEnabled := true }).2.1.controlMode =
        ({ c6state with torqueEnabled := true } : HwState).controlMode ∧
      (enable_torque c6env false { c6state with torqueEnabled := true }).2.1.gripperControlMode =
        ({ c6state with torqueEnabled := true } : HwState).gripperControlMode) ∧
    ((set_control_mode c5env ControlMode.Velocity false c1state).2.1.gripperControlMode =
        c1state.gripperControlMode ∧
      ((set_control_mode c5env ControlMode.Velocity false c1state).2.1.controlMode =
          c1state.controlMode ∨
        (set_control_mode c5env ControlMode.Velocity false c1state).2.1.controlMode =
          ControlMode.Velocity) ∧
      ((set_control_mode c5env ControlMode.Velocity false c1state).2.1.torqueEnabled =
          c1state.torqueEnabled ∨
        (set_control_mode c5env ControlMode.Velocity false c1state).2.1.torqueEnabled = false)) :=
  ⟨(C5_transition_failure_amended c6env { c6state with torqueEnabled := true }).1 false
      (by decide),
   (C5_transition_failure_amended c5env c1state).2 ControlMode.Velocity false (by decide)⟩

theorem assignIndices_mem_bound :
    ∀ (cfgs : List JointConfig) (vi ji : Nat) (p : Bool × Nat),
      p ∈ assignIndices cfgs vi ji →
      (p.1 = true → p.2 < vi + cfgs.countP (fun c => isVirtualTrue c)) ∧
      (p.1 = false → p.2 < ji + cfgs.countP (fun c => !isVirtualTrue c)) := by
  intro cfgs
  induction cfgs with
  | nil =>
    intro vi ji p hp
    simp [assignIndices] at hp
  | cons c rest ih =>
    intro vi ji p hp
    by_cases hc : isVirtualTrue c
    · simp only [assignIndices, hc, if_true, List.mem_cons] at hp
      rcases hp with rfl | hp
      · refine ⟨fun _ => ?_, fun h => by cases h⟩
        simp only [List.countP_cons, hc, if_true]
        omega
      · obtain ⟨h1, h2⟩ := ih (vi + 1) ji p hp
        refine ⟨fun hb => ?_, fun hb => ?_⟩
        · have := h1 hb
          simp only [List.countP_cons, hc, if_true]
          omega
        · have := h2 hb
          simp only [List.countP_cons, hc, Bool.not_true, if_false]
          omega
    · have hcb : isVirtualTrue c = false := by simpa using hc
      simp only [assignIndices, hcb, Bool.false_eq_true, if_false, List.mem_cons] at hp
      rcases hp with rfl | hp
      · refine ⟨fun h => (nomatch h), fun _ => ?_⟩
        simp only [List.countP_cons, hcb, Bool.not_false, if_true]
        omega
      · obtain ⟨h1, h2⟩ := ih vi (ji + 1) p hp
        refine ⟨fun hb => ?_, fun hb => ?_⟩
        · have := h1 hb
          simp only [List.countP_cons, hcb, if_false]
          omega
        · have := h2 hb
          simp only [List.countP_cons, hcb, Bool.not_false, if_true]
          omega

theorem assignIndices_real_mem :
    ∀ (cfgs : List JointConfig) (vi ji k : Nat),
      k < cfgs.countP (fun c => !isVirtualTrue c) →
      (false, ji + k) ∈ assignIndices cfgs vi ji := by
  intro cfgs
  induction cfgs with
  | nil =>
    intro vi ji k hk
    simp at hk
  | cons c rest ih =>
    intro vi ji k hk
    by_cases hc : isVirtualTrue c
    · simp only [assignIndices, hc, if_true]
      refine List.mem_cons_of_mem _ (ih (vi + 1) ji k ?_)
      simpa [List.countP_cons, hc] using hk
    · have hcb : isVirtualTrue c = false := by simpa using hc
      simp only [assignIndices, hcb, Bool.false_eq_true, if_false]
      rcases k with _ | k2
      · exact List.mem_cons_self _ _
      · refine List.mem_cons_of_mem _ ?_
        have hk2 : k2 < rest.countP (fun c => !isVirtualTrue c) := by
          simp only [List.countP_cons, hcb, Bool.not_false, if_true] at hk
          omega
        have := ih vi (ji + 1) k2 hk2
        have harith : ji + (k2 + 1) = ji + 1 + k2 := by omega
        rw [harith]
        exact this

theorem countP_eq_of_all_true (cfgs : List JointConfig)
    (h : ∀ c ∈ cfgs, c.isVirtualParam = none ∨ c.isVirtualParam = some "true") :
    cfgs.countP (fun c => isVirtualTrue c) = numVirtualJoints cfgs ∧
    cfgs.countP (fun c => !isVirtualTrue c) = numJoints cfgs := by
  induction cfgs with
  | nil => exact ⟨rfl, rfl⟩
  | cons c rest ih =>
    obtain ⟨ih1, ih2⟩ := ih (fun a ha => h a (List.mem_cons_of_mem _ ha))
    rcases h c (List.mem_cons_self _ _) with hc | hc
    · have h1 : isVirtualTrue c = false := by simp [isVirtualTrue, hc]
      have h2 : hasIsVirtual c = false := by simp [hasIsVirtual, hc]
      unfold numJoints numVirtualJoints at *
      simp only [List.countP_cons, h1, h2, Bool.not_false, if_true, if_false]
      omega
    · have h1 : isVirtualTrue c = true := by simp [isVirtualTrue, hc]
      have h2 : hasIsVirtual c = true := by simp [hasIsVirtual, hc]
      unfold numJoints numVirtualJoints at *
      simp only [List.countP_cons, h1, h2, Bool.not_true, if_true, if_false]
      omega

theorem numJoints_lt_countReal (cfgs : List JointConfig)
    (h : ∃ c ∈ cfgs, c.isVirtualParam ≠ none ∧ c.isVirtualParam ≠ some "true") :
    numJoints cfgs < cfgs.countP (fun c => !isVirtualTrue c) := by
  have hle : ∀ l : List JointConfig, numJoints l ≤ l.countP (fun c => !isVirtualTrue c) := by
    intro l
    induction l with
    | nil => exact Nat.le_refl 0
    | cons c rest ih2 =>
      unfold numJoints at *
      simp only [List.countP_cons]
      have hpt : (if !hasIsVirtual c then 1 else 0) ≤ (if !isVirtualTrue c then 1 else 0) := by
        rcases hv : c.isVirtualParam with _ | v
        · have h1 : hasIsVirtual c = false := by simp [hasIsVirtual, hv]
          have h2 : isVirtualTrue c = false := by simp [isVirtualTrue, hv]
          simp [h1, h2]
        · have h1 : hasIsVirtual c = true := by simp [hasIsVirtual, hv]
          simp [h1]
      omega
  induction cfgs with
  | nil => simp at h
  | cons c rest ih =>
    rcases h with ⟨c2, hc2mem, hc2⟩
    rcases List.mem_cons.mp hc2mem with rfl | hmem
    · have h1 : isVirtualTrue c2 = false := by
        unfold isVirtualTrue
        rcases hv : c2.isVirtualParam with _ | v
        · rfl
        · simp only [hv] at hc2
          have hne : v ≠ "true" := fun hvv => hc2.2 (by rw [hvv])
          simpa using hne
      have h2 : hasIsVirtual c2 = true := by
        unfold hasIsVirtual
        rcases hv : c2.isVirtualParam with _ | v
        · exact absurd hv hc2.1
        · rfl
      unfold numJoints
      simp [List.countP_cons, h1, h2]
      have h4 := hle rest
      unfold numJoints at h4
      omega
    · have := ih ⟨c2, hmem, hc2⟩
      unfold numJoints at *
      simp only [List.countP_cons]
      have hpt : (if !hasIsVirtual c then 1 else 0) ≤ (if !isVirtualTrue c then 1 else 0) := by
        rcases hv : c.isVirtualParam with _ | v
        · have h1 : hasIsVirtual c = false := by simp [hasIsVirtual, hv]
          have h2 : isVirtualTrue c = false := by simp [isVirtualTrue, hv]
          simp [h1, h2]
        · have h1 : hasIsVirtual c = true := by simp [hasIsVirtual, hv]
          simp [h1]
      omega

/-- Claim C9: `configure`'s two passes partition the joints inconsistently —
the sizing pass counts a joint as virtual whenever `is_virtual` is present,
while the assignment pass requires its value to be exactly "true".  When
every present `is_virtual` equals "true", every assignment index is within
the allocated array sizes; when some joint carries `is_virtual` with another
value, the device-backed assignment reaches an index at or beyond the
allocated device-backed array size (out of bounds). -/
theorem C9_configure_partition (cfgs : List JointConfig) :
    ((∀ c ∈ cfgs, c.isVirtualParam = none ∨ c.isVirtualParam = some "true") →
      ∀ p ∈ assignIndices cfgs 0 0,
        (p.1 = true → p.2 < numVirtualJoints cfgs) ∧
        (p.1 = false → p.2 < numJoints cfgs)) ∧
    ((∃ c ∈ cfgs, c.isVirtualParam ≠ none ∧ c.isVirtualParam ≠ some "true") →
      ∃ p ∈ assignIndices cfgs 0 0, p.1 = false ∧ numJoints cfgs ≤ p.2) := by
  constructor
  · intro hall p hp
    obtain ⟨hvt, hreal⟩ := countP_eq_of_all_true cfgs hall
    obtain ⟨h1, h2⟩ := assignIndices_mem_bound cfgs 0 0 p hp
    constructor
    · intro hb
      have := h1 hb
      omega
    · intro hb
      have := h2 hb
      omega
  · intro hex
    have hlt := numJoints_lt_countReal cfgs hex
    have hmem := assignIndices_real_mem cfgs 0 0 (numJoints cfgs) hlt
    exact ⟨(false, 0 + numJoints cfgs), hmem, rfl, by omega⟩

/-- Joint configurations whose `is_virtual` values, when present, all equal
"true". -/
def c9cfgsA : List JointConfig := [⟨"a", none⟩, ⟨"b", some "true"⟩]

/-- Joint configurations containing an `is_virtual` value other than "true". -/
def c9cfgsB : List JointConfig := [⟨"a", none⟩, ⟨"b", some "false"⟩]

/-- Witness for C9: both conjuncts instantiated on concrete configurations. -/
theorem C9_configure_partition_witness :
    (0 : Nat) < numJoints c9cfgsA ∧
    (∃ p ∈ assignIndices c9cfgsB 0 0, p.1 = false ∧ numJoints c9cfgsB ≤ p.2) :=
  ⟨((C9_configure_partition c9cfgsA).1 (by decide) (false, 0) (by decide)).2 rfl,
   (C9_configure_partition c9cfgsB).2 (by decide)⟩
